import Mathlib

/-
Verification of the tyssue epithelial sheet vertex model against its
natural-language specification.

Shallow embedding of the four source modules:
  * src/src/tyssue/dynamics/sheet_vertex_model.py   (energy, gradient, dimentionalize)
  * src/src/tyssue/dynamics/sheet_gradients.py      (height_grad, area_grad)
  * src/src/tyssue/topology/sheet_topology.py       (type1_transition, add_vert, cell_division)
  * src/tyssue/geometry/sheet_geometry.py           (SheetGeometry.update_all and friends)

Conventions of the embedding:
  * numpy floats are embedded as elements of a linearly ordered field
    (instantiated at Rat for executable witnesses and at Real where
    derivatives are stated);
  * pandas DataFrames with a RangeIndex are embedded as Lean lists, a row
    id being its position in the list; df.loc[i] is List.get?, boolean-mask
    filtering is List.filter, .index[0] on a filtered frame is the first
    index satisfying the mask (List.findIdx?);
  * functions that can raise (KeyError on a missing label, IndexError on
    .index[0] of an empty selection, AttributeError on a missing method)
    return Except String;
  * square roots (np.hypot, np.linalg.norm, **0.5) are parameterized by a
    function q : alpha -> alpha so the definitions stay executable; the
    Real-valued theorems instantiate q with Real.sqrt.
-/

/-- Three-component vector (a row of an x/y/z-column table). -/
structure Vec3 (α : Type) : Type where
  x : α
  y : α
  z : α
deriving DecidableEq, Repr

instance {α : Type} [Add α] : Add (Vec3 α) :=
  ⟨fun a b => ⟨a.x + b.x, a.y + b.y, a.z + b.z⟩⟩

instance {α : Type} [Sub α] : Sub (Vec3 α) :=
  ⟨fun a b => ⟨a.x - b.x, a.y - b.y, a.z - b.z⟩⟩

instance {α : Type} [Zero α] : Zero (Vec3 α) :=
  ⟨⟨0, 0, 0⟩⟩

/-- Scalar multiplication of a Vec3 (broadcasting a scalar column onto the
three coordinate columns, the role of the missing utility _to_3d). -/
instance {α : Type} [Mul α] : SMul α (Vec3 α) :=
  ⟨fun c v => ⟨c * v.x, c * v.y, c * v.z⟩⟩

/-- Componentwise division of a Vec3 by a scalar. -/
def Vec3.divs {α : Type} [Div α] (v : Vec3 α) (c : α) : Vec3 α :=
  ⟨v.x / c, v.y / c, v.z / c⟩

/-- np.cross on rows of three-column tables. -/
def Vec3.cross {α : Type} [Mul α] [Sub α] (a b : Vec3 α) : Vec3 α :=
  ⟨a.y * b.z - a.z * b.y, a.z * b.x - a.x * b.z, a.x * b.y - a.y * b.x⟩

/-- The geometry mode stored in sheet.settings["geometry"], a closed set of
string tags in the source: "flat", "cylindrical", "spherical", "rod". -/
inductive GeomMode : Type where
  | flat : GeomMode
  | cylindrical : GeomMode
  | spherical : GeomMode
  | rod : GeomMode
deriving DecidableEq, Repr

/-- The height axis stored in sheet.settings["height_axis"], one of the
coordinate names "x", "y", "z". -/
inductive Axis : Type where
  | x : Axis
  | y : Axis
  | z : Axis
deriving DecidableEq, Repr

/-- The coordinate of a point along a named axis. -/
def axisCoord {α : Type} (w : Axis) (p : Vec3 α) : α :=
  match w with
  | .x => p.x
  | .y => p.y
  | .z => p.z

/-- The two non-axis coordinates, in coordinate order, mirroring
u, v = (c for c in sheet.coords if c != w) in the source. -/
def otherCoords {α : Type} (w : Axis) (p : Vec3 α) : α × α :=
  match w with
  | .x => (p.y, p.z)
  | .y => (p.x, p.z)
  | .z => (p.x, p.y)

/-!  ## Dynamics data model

sheet_vertex_model.py addresses the mesh through cell_df / je_df / jv_df
(cells, junction edges, junction vertices) while sheet_gradients.py uses
the newer vert_df / edge_df / face_df names for the same tables; the
embedding merges both into one record, keeping every column either module
reads: cell centroids and mechanical parameters on cells, the geometric
and mechanical edge columns on junction edges, positions and heights on
junction vertices. -/

/-- A row of cell_df (= face_df): centroid coordinates, model parameters,
derived perimeter and volume, and the liveness flag (a numeric column
compared against 1 in the source). -/
structure DCell (α : Type) : Type where
  x : α
  y : α
  z : α
  contractility : α
  vol_elasticity : α
  prefered_vol : α
  perimeter : α
  vol : α
  is_alive : α
deriving DecidableEq, Repr

/-- A row of je_df (= edge_df): source, target and cell references plus the
derived displacement (dx,dy,dz), normal (nx,ny,nz), length and sub_area
columns and the line_tension parameter. -/
structure DJe (α : Type) : Type where
  srce : ℕ
  trgt : ℕ
  cell : ℕ
  dx : α
  dy : α
  dz : α
  nx : α
  ny : α
  nz : α
  length : α
  sub_area : α
  line_tension : α
deriving DecidableEq, Repr

/-- A row of jv_df (= vert_df): position, rho and height. -/
structure DJv (α : Type) : Type where
  x : α
  y : α
  z : α
  rho : α
  height : α
deriving DecidableEq, Repr

/-- The sheet as seen by the dynamics modules, together with the settings
they read (geometry mode and the two normalization factors). -/
structure DSheet (α : Type) : Type where
  cell_df : List (DCell α)
  je_df : List (DJe α)
  jv_df : List (DJv α)
  geometry : GeomMode
  nrj_norm_factor : α
  grad_norm_factor : α

/-- sheet.upcast_cell: broadcast a per-cell value onto a junction edge via
its cell reference (an out-of-range reference would be a KeyError in
pandas; the embedding defaults to 0 there, and every theorem instance
keeps references in range). -/
def DSheet.upcast_cell {α : Type} [Zero α] (s : DSheet α) (f : DCell α → α)
    (e : DJe α) : α :=
  ((s.cell_df.get? e.cell).map f).getD 0

/-- sheet.upcast_srce restricted to the height column: broadcast the source
vertex height onto a junction edge. -/
def DSheet.upcast_srce_height {α : Type} [Zero α] (s : DSheet α) (e : DJe α) : α :=
  ((s.jv_df.get? e.srce).map DJv.height).getD 0

/-- elastic_force from sheet_vertex_model.py with its default arguments:
K * (vol - prefered_vol) for one cell row. -/
def elastic_force {α : Type} [Field α] (c : DCell α) : α :=
  c.vol_elasticity * (c.vol - c.prefered_vol)

/-- elastic_energy from sheet_vertex_model.py with its default arguments:
0.5 * K * (vol - prefered_vol) ** 2 for one cell row. -/
def elastic_energy {α : Type} [Field α] (c : DCell α) : α :=
  (1 / 2) * c.vol_elasticity * (c.vol - c.prefered_vol) ^ 2

/-- live_cell_df: the rows of cell_df with is_alive == 1. -/
def live_cell_df {α : Type} [LinearOrderedField α] (s : DSheet α) : List (DCell α) :=
  s.cell_df.filter (fun c => decide (c.is_alive = 1))

/-- live_je_df: the junction edges whose upcast is_alive equals 1
(edges incident to live cells). -/
def live_je_df {α : Type} [LinearOrderedField α] (s : DSheet α) : List (DJe α) :=
  s.je_df.filter (fun e => decide (s.upcast_cell DCell.is_alive e = 1))

/-- compute_energy with full_output=False: the scalar
(E_t.sum() + (E_c + E_v).sum()) / sheet.nrj_norm_factor, where E_t is
line_tension * length / 2 over live junction edges, and E_c, E_v are the
contractile and volume-elastic energies over live cells. -/
def compute_energy {α : Type} [LinearOrderedField α] (s : DSheet α) : α :=
  (((live_je_df s).map (fun e => e.line_tension * e.length / 2)).sum +
    ((live_cell_df s).map
      (fun c => (1 / 2) * c.contractility * c.perimeter ^ 2 + elastic_energy c)).sum) /
    s.nrj_norm_factor

/-- compute_energy with full_output=True: the source returns
(E / sheet.nrj_norm_factor for E in (E_t, E_c, E_v)), a generator of the
three per-element energy Series, each divided by the normalization factor;
embedded as the triple of per-element lists in that order. -/
def compute_energy_full_output {α : Type} [LinearOrderedField α] (s : DSheet α) :
    List α × List α × List α :=
  ( ((live_je_df s).map (fun e => e.line_tension * e.length / 2)).map
      (fun E => E / s.nrj_norm_factor)
  , ((live_cell_df s).map (fun c => (1 / 2) * c.contractility * c.perimeter ^ 2)).map
      (fun E => E / s.nrj_norm_factor)
  , ((live_cell_df s).map elastic_energy).map (fun E => E / s.nrj_norm_factor) )

/-- Following the words of claim C2 (scalar branch): the sum over edges
incident to live faces of line_tension * length / 2, plus the sum over
live faces of 0.5 * contractility * perimeter ^ 2
+ 0.5 * vol_elasticity * (volume - preferred_volume) ^ 2, the total
divided by the global energy-normalization factor. -/
def compute_energy_spec {α : Type} [LinearOrderedField α] (s : DSheet α) : α :=
  (((live_je_df s).map (fun e => e.line_tension * e.length / 2)).sum +
    ((live_cell_df s).map (fun c => (1 / 2) * c.contractility * c.perimeter ^ 2)).sum +
    ((live_cell_df s).map
      (fun c => (1 / 2) * c.vol_elasticity * (c.vol - c.prefered_vol) ^ 2)).sum) /
    s.nrj_norm_factor

/-- Following the words of claim C2 (full_output branch): the three
normalized component sums (tension, contractility, volume elasticity) as a
3-tuple of scalars. -/
def compute_energy_full_output_spec {α : Type} [LinearOrderedField α] (s : DSheet α) :
    α × α × α :=
  ( ((live_je_df s).map (fun e => e.line_tension * e.length / 2)).sum / s.nrj_norm_factor
  , ((live_cell_df s).map (fun c => (1 / 2) * c.contractility * c.perimeter ^ 2)).sum /
      s.nrj_norm_factor
  , ((live_cell_df s).map
      (fun c => (1 / 2) * c.vol_elasticity * (c.vol - c.prefered_vol) ^ 2)).sum /
      s.nrj_norm_factor )

/-- A concrete two-edge, one-cell mesh exercising compute_energy: one live
cell with contractility 2, perimeter 3, vol_elasticity 2, vol 5,
prefered_vol 1, and two junction edges with tensions 4, 6 and lengths 1, 2;
nrj_norm_factor is 2. -/
def C2sheet : DSheet ℚ :=
  { cell_df := [⟨0, 0, 0, 2, 2, 1, 3, 5, 1⟩]
  , je_df :=
      [ ⟨0, 1, 0, 0, 0, 0, 0, 0, 0, 1, 0, 4⟩
      , ⟨1, 0, 0, 0, 0, 0, 0, 0, 0, 2, 0, 6⟩ ]
  , jv_df := [⟨0, 0, 0, 0, 0⟩, ⟨1, 0, 0, 0, 0⟩]
  , geometry := .flat
  , nrj_norm_factor := 2
  , grad_norm_factor := 1 }

/-!  ## Gradients (sheet_gradients.py and the gradient half of
sheet_vertex_model.py) -/

/-- Modelled from the spec: length_grad.  sheet_vertex_model.py imports
length_grad from sheet_gradients, but sheet_gradients.py does not define it
(see C1); the spec calls it "the per-edge length gradient", the gradient of
the edge length with respect to the source-vertex position,
-(trgt - srce) / length = -dcoords / length per junction edge. -/
def length_grad {α : Type} [Field α] (e : DJe α) : Vec3 α :=
  ⟨-(e.dx / e.length), -(e.dy / e.length), -(e.dz / e.length)⟩

/-- height_grad from sheet_gradients.py, per vertex row: the branch on
sheet.settings["geometry"] builds r_to_rho from the position and the stored
rho column.  For "cylindrical" the source divides the coordinates by rho
and zeroes the "z" column; for "flat" it zeroes "x","y" and sets "z" to 1
(both hard-code the z axis); for "spherical" it divides all coordinates by
rho.  No branch handles "rod", where the function would raise
UnboundLocalError; embedded as none. -/
def height_grad {α : Type} [Field α] (mode : GeomMode) (v : DJv α) : Option (Vec3 α) :=
  match mode with
  | .cylindrical => some ⟨v.x / v.rho, v.y / v.rho, 0⟩
  | .flat => some ⟨0, 0, 1⟩
  | .spherical => some ⟨v.x / v.rho, v.y / v.rho, v.z / v.rho⟩
  | .rod => none

/-- area_grad from sheet_gradients.py, per junction edge: with
inv_area = 1 / (4 * sub_area), r_ak = srce_pos - face_pos,
r_aj = trgt_pos - face_pos and n the stored normal columns, the pair
(inv_area * cross r_aj n, inv_area * cross n r_ak). -/
def area_grad {α : Type} [Field α] (s : DSheet α) (e : DJe α) : Vec3 α × Vec3 α :=
  let inv_area := 1 / (4 * e.sub_area)
  let face_pos : Vec3 α :=
    ((s.cell_df.get? e.cell).map (fun c => (⟨c.x, c.y, c.z⟩ : Vec3 α))).getD 0
  let srce_pos : Vec3 α :=
    ((s.jv_df.get? e.srce).map (fun v => (⟨v.x, v.y, v.z⟩ : Vec3 α))).getD 0
  let trgt_pos : Vec3 α :=
    ((s.jv_df.get? e.trgt).map (fun v => (⟨v.x, v.y, v.z⟩ : Vec3 α))).getD 0
  let r_ak := srce_pos - face_pos
  let r_aj := trgt_pos - face_pos
  let n : Vec3 α := ⟨e.nx, e.ny, e.nz⟩
  (inv_area • r_aj.cross n, inv_area • n.cross r_ak)

/-- tension_grad from sheet_vertex_model.py, per junction edge:
grad_lij * (line_tension * upcast is_alive). -/
def tension_grad {α : Type} [LinearOrderedField α] (s : DSheet α) (e : DJe α) : Vec3 α :=
  (e.line_tension * s.upcast_cell DCell.is_alive e) • length_grad e

/-- contractile_grad from sheet_vertex_model.py, per junction edge:
grad_lij * upcast (contractility * perimeter * is_alive). -/
def contractile_grad {α : Type} [LinearOrderedField α] (s : DSheet α) (e : DJe α) : Vec3 α :=
  s.upcast_cell (fun c => c.contractility * c.perimeter * c.is_alive) e • length_grad e

/-!  ## Import and call surface of the gradient modules (claim C1)

sheet_vertex_model.py opens with
"from .sheet_gradients import length_grad, height_grad, area_grad", and
elastic_grad calls area_grad(sheet, coords) and height_grad(sheet, coords);
sheet_gradients.py defines exactly height_grad(sheet) and area_grad(sheet),
each of one parameter and no default or variadic arguments.  The lists
below record those names and arities verbatim. -/

/-- The functions sheet_gradients.py defines, with their parameter counts:
height_grad(sheet) and area_grad(sheet). -/
def sheet_gradients_defs : List (String × ℕ) :=
  [("height_grad", 1), ("area_grad", 1)]

/-- The names sheet_vertex_model.py imports from sheet_gradients. -/
def sheet_vertex_model_gradient_imports : List String :=
  ["length_grad", "height_grad", "area_grad"]

/-- The calls elastic_grad makes into sheet_gradients, with the number of
positional arguments passed: area_grad(sheet, coords) and
height_grad(sheet, coords). -/
def elastic_grad_internal_calls : List (String × ℕ) :=
  [("area_grad", 2), ("height_grad", 2)]

/-- A positional call from sheet_vertex_model into sheet_gradients: the
body is reached only when the callee is defined there with exactly the
passed number of positional arguments; otherwise the call raises Python's
TypeError for the arity mismatch (both callees take one parameter, with
no defaults or variadics). -/
def call_sheet_gradients {gamma : Type} (fname : String) (nargs : Nat)
    (body : gamma) : Except String gamma :=
  if sheet_gradients_defs.contains (fname, nargs) then .ok body
  else .error ("TypeError: " ++ fname ++
    "() takes 1 positional argument but " ++ toString nargs ++ " were given")

/-- The dataflow of elastic_grad past its failing calls, per junction
edge: with kv_v0 = upcast (elastic_force * is_alive), je_h the upcast
source height, (grad_a_srce, grad_a_trgt) = area_grad and the height
gradient of the source vertex, the pair
(kv_v0 * (je_h * grad_a_srce + sub_area * height_grad),
 kv_v0 * (je_h * grad_a_trgt)), broadcasting the source-vertex height
gradient onto the edge.  The real elastic_grad never produces it (see
elastic_grad below); it is kept to state the spec side of claim C6.  The
Option propagates the missing rod branch of height_grad. -/
def elastic_grad_intended {α : Type} [LinearOrderedField α] (s : DSheet α) (e : DJe α) :
    Option (Vec3 α × Vec3 α) :=
  let kv_v0 := s.upcast_cell (fun c => elastic_force c * c.is_alive) e
  let je_h := s.upcast_srce_height e
  let ga := area_grad s e
  match height_grad s.geometry ((s.jv_df.get? e.srce).getD ⟨0, 0, 0, 0, 0⟩) with
  | none => none
  | some hg => some (kv_v0 • (je_h • ga.1 + e.sub_area • hg), kv_v0 • (je_h • ga.2))

/-- elastic_grad from sheet_vertex_model.py: the body calls
area_grad(sheet, coords) and then height_grad(sheet, coords), two
positional arguments against the one-parameter definitions of
sheet_gradients.py, so every call raises TypeError at the first of those
calls and the dataflow past them (elastic_grad_intended) is never
reached. -/
def elastic_grad {α : Type} [LinearOrderedField α] (s : DSheet α) :
    Except String (List (Option (Vec3 α × Vec3 α))) :=
  match call_sheet_gradients "area_grad" 2 () with
  | .error msg => .error msg
  | .ok _ =>
    match call_sheet_gradients "height_grad" 2 () with
    | .error msg => .error msg
    | .ok _ => .ok (s.je_df.map (elastic_grad_intended s))

/-- Sequence a list of optional values (used to collect the per-edge
elastic gradient pairs, which are all defined exactly when the geometry
mode has a height-gradient branch). -/
def mapOption {β γ : Type} (f : β → Option γ) : List β → Option (List γ)
  | [] => some []
  | b :: l =>
    match f b, mapOption f l with
    | some c, some cs => some (c :: cs)
    | _, _ => none

/-- compute_gradient from sheet_vertex_model.py.  Its module never loads:
the opening import asks sheet_gradients for length_grad, which that module
does not define, so every use raises ImportError; were the import to
resolve, the TypeError inside elastic_grad would raise next.  Only past
both real failures would the function assemble, per junction vertex,
(grad_t summed at srce minus at trgt) / 2
+ grad_c summed at srce minus at trgt
+ grad_v_srce summed at srce + grad_v_trgt summed at trgt,
divided by norm_factor = sheet.nrj_norm_factor (the energy factor: the
source reads sheet.nrj_norm_factor, not grad_norm_factor).  The embedding
guards that assembly behind both failures, so it returns the ImportError
on every input. -/
def compute_gradient {α : Type} [LinearOrderedField α] (s : DSheet α) :
    Except String (List (Vec3 α)) :=
  if not (sheet_vertex_model_gradient_imports.all
      (fun n => (sheet_gradients_defs.map Prod.fst).contains n)) then
    .error
      "ImportError: cannot import name length_grad from tyssue.dynamics.sheet_gradients"
  else match elastic_grad s with
  | .error msg => .error msg
  | .ok grad_vo =>
    match mapOption (fun o => o) grad_vo with
    | none => .error "height_grad: no branch for the rod geometry"
    | some grad_v =>
      let jes := s.je_df.zip grad_v
      .ok ((List.range s.jv_df.length).map (fun v =>
        let grad_i :=
          (((s.je_df.filter (fun e => e.srce == v)).map (tension_grad s)).sum -
            ((s.je_df.filter (fun e => e.trgt == v)).map (tension_grad s)).sum).divs 2 +
          (((s.je_df.filter (fun e => e.srce == v)).map (contractile_grad s)).sum -
            ((s.je_df.filter (fun e => e.trgt == v)).map (contractile_grad s)).sum) +
          ((jes.filter (fun p => p.1.srce == v)).map (fun p => p.2.1)).sum +
          ((jes.filter (fun p => p.1.trgt == v)).map (fun p => p.2.2)).sum
        grad_i.divs s.nrj_norm_factor))

/-- The assembled per-edge contribution sum of claim C6, before any
normalization: the assembly compute_gradient would perform past its
failing calls, with no final division. -/
def compute_gradient_assembled {α : Type} [LinearOrderedField α] (s : DSheet α) :
    Option (List (Vec3 α)) :=
  match mapOption (elastic_grad_intended s) s.je_df with
  | none => none
  | some grad_v =>
    let jes := s.je_df.zip grad_v
    some ((List.range s.jv_df.length).map (fun v =>
      (((s.je_df.filter (fun e => e.srce == v)).map (tension_grad s)).sum -
        ((s.je_df.filter (fun e => e.trgt == v)).map (tension_grad s)).sum).divs 2 +
      (((s.je_df.filter (fun e => e.srce == v)).map (contractile_grad s)).sum -
        ((s.je_df.filter (fun e => e.trgt == v)).map (contractile_grad s)).sum) +
      ((jes.filter (fun p => p.1.srce == v)).map (fun p => p.2.1)).sum +
      ((jes.filter (fun p => p.1.trgt == v)).map (fun p => p.2.2)).sum))

/-- Following the words of claim C6: the per-vertex gradient as the
assembled per-edge contribution sum divided by the global
gradient-normalization factor grad_norm_factor. -/
def compute_gradient_claim {α : Type} [LinearOrderedField α] (s : DSheet α) :
    Option (List (Vec3 α)) :=
  (compute_gradient_assembled s).map (List.map (fun g => g.divs s.grad_norm_factor))

/-!  ## dimentionalize (sheet_vertex_model.py) -/

/-- The model specification record of sheet_vertex_model.py, flattened:
the per-cell parameters, the per-edge line_tension, the per-vertex
radial_tension and the two settings normalization factors. -/
structure ModSpecs (α : Type) : Type where
  contractility : α
  vol_elasticity : α
  prefered_height : α
  prefered_area : α
  prefered_vol : α
  line_tension : α
  radial_tension : α
  grad_norm_factor : α
  nrj_norm_factor : α
deriving DecidableEq, Repr

/-- dimentionalize from sheet_vertex_model.py (the kwargs update is not
modelled): with Kv = vol_elasticity, A0 = prefered_area,
h0 = prefered_height, it rescales contractility and line_tension, sets
prefered_vol = A0 * h0, and stores the two normalization factors
grad_norm_factor = Kv * A0 ** 1.5 * h0 ** 2 and
nrj_norm_factor = Kv * (A0 * h0) ** 2.  A0 ** 1.5 is embedded as
A0 * q A0 with q the square-root function. -/
def dimentionalize {α : Type} [Field α] (q : α → α) (m : ModSpecs α) : ModSpecs α :=
  let Kv := m.vol_elasticity
  let A0 := m.prefered_area
  let h0 := m.prefered_height
  let gamma := m.contractility
  let lbda := m.line_tension
  { m with
    contractility := gamma * Kv * A0 * h0 ^ 2
    prefered_vol := A0 * h0
    line_tension := lbda * Kv * (A0 * q A0) * h0 ^ 2
    grad_norm_factor := Kv * (A0 * q A0) * h0 ^ 2
    nrj_norm_factor := Kv * (A0 * h0) ^ 2 }

/-- Reference natural units for dimentionalize: vol_elasticity 1,
prefered_area 4, prefered_height 10 (A0 chosen a perfect square so the
two factors are exactly representable): grad_norm_factor becomes
1 * 4 ** 1.5 * 100 = 800 while nrj_norm_factor becomes
1 * (4 * 10) ** 2 = 1600. -/
def C6specs : ModSpecs ℝ :=
  { contractility := 1
  , vol_elasticity := 1
  , prefered_height := 10
  , prefered_area := 4
  , prefered_vol := 0
  , line_tension := 1
  , radial_tension := 0
  , grad_norm_factor := 1
  , nrj_norm_factor := 1 }

/-- A concrete one-edge mesh with the dimentionalized factors of C6specs
stored in its settings (nrj_norm_factor 1600, grad_norm_factor 800): a
single junction edge of length 1 along x with line_tension 1 between two
vertices, one live cell with zero contractility and elasticity, flat
geometry. -/
def C6sheet : DSheet ℚ :=
  { cell_df := [⟨0, 0, 0, 0, 0, 0, 0, 0, 1⟩]
  , je_df := [⟨0, 1, 0, 1, 0, 0, 0, 0, 0, 1, 0, 1⟩]
  , jv_df := [⟨0, 0, 0, 0, 0⟩, ⟨1, 0, 0, 0, 0⟩]
  , geometry := .flat
  , nrj_norm_factor := 1600
  , grad_norm_factor := 800 }

/-!  ## Per-vertex geometry (SheetGeometry.update_height, section 4.2)

The height computation of sheet_geometry.py, expressed per vertex so the
height-gradient contract of claim C3 can be stated against it. -/

/-- Modelled from the spec: PlanarGeometry.dist_to_point (a parent-class
method missing from src, used by the rod branch of update_height) is the
Euclidean distance from a row position to a fixed point, over the listed
coordinates (here the u, v, w coordinates in that order). -/
def dist_to_point {α : Type} [Field α] (q : α → α) (u v w pu pv pw : α) : α :=
  q ((u - pu) ^ 2 + (v - pv) ^ 2 + (w - pw) ^ 2)

/-- The rho column of one vertex as computed by
SheetGeometry.update_height: with w the configured height axis and u, v
the other two coordinates in order, "cylindrical" takes np.hypot(v, u),
"flat" takes the coordinate along w, "spherical" the full Euclidean norm,
and "rod" the planar distance from the axis except on tip vertices, which
measure from the focus at -(b-a) (left) or +(b-a) (right) along the axis.
The source overwrites the left-tip rows and then the right-tip rows, so a
vertex carrying both flags receives the right-focus distance.  q is the
square-root function. -/
def rho_vert {α : Type} [Field α] (q : α → α) (mode : GeomMode) (w : Axis)
    (ab : α × α) (left_tip right_tip : Bool) (p : Vec3 α) : α :=
  let uv := otherCoords w p
  match mode with
  | .cylindrical => q (uv.2 ^ 2 + uv.1 ^ 2)
  | .flat => axisCoord w p
  | .spherical => q (p.x ^ 2 + p.y ^ 2 + p.z ^ 2)
  | .rod =>
    let w0 := ab.2 - ab.1
    if right_tip then dist_to_point q uv.1 uv.2 (axisCoord w p) 0 0 w0
    else if left_tip then dist_to_point q uv.1 uv.2 (axisCoord w p) 0 0 (-w0)
    else q (uv.1 ^ 2 + uv.2 ^ 2)

/-- The height column of one vertex: rho - basal_shift
(SheetGeometry.update_height, final line of the vertex part). -/
def height_vert {α : Type} [Field α] (q : α → α) (mode : GeomMode) (w : Axis)
    (ab : α × α) (left_tip right_tip : Bool) (basal_shift : α) (p : Vec3 α) : α :=
  rho_vert q mode w ab left_tip right_tip p - basal_shift

/-- Displace a position by t along one coordinate axis (the probe used to
state directional derivatives of the height). -/
def bumpAxis {α : Type} [Add α] (w : Axis) (p : Vec3 α) (t : α) : Vec3 α :=
  match w with
  | .x => ⟨p.x + t, p.y, p.z⟩
  | .y => ⟨p.x, p.y + t, p.z⟩
  | .z => ⟨p.x, p.y, p.z + t⟩

/-!  ## Topology data model (sheet_topology.py)

sheet_topology.py reads and writes the srce / trgt / face references of
edge rows and arbitrary attribute columns of vertex, edge and face rows;
rows are embedded with their references explicit and every other column
as a total function from column name to value (a pandas row).  Row ids
are list positions (a RangeIndex). -/

/-- An edge row: the three references plus all remaining columns. -/
structure EdgeRow (α : Type) : Type where
  srce : ℕ
  trgt : ℕ
  face : ℕ
  attrs : String → α

/-- The sheet as seen by the topology module: vertex rows and face rows
are bare column maps, edge rows carry their references; coords lists the
position column names (sheet.coords). -/
structure SheetT (α : Type) : Type where
  vert_df : List (String → α)
  edge_df : List (EdgeRow α)
  face_df : List (String → α)
  coords : List String

/-- df[mask].index[0] together with the row it selects: the first index
satisfying the predicate, or none when the selection is empty (where the
source raises IndexError). -/
def ilocFirst {β : Type} (l : List β) (p : β → Bool) : Option (ℕ × β) :=
  match l.findIdx? p with
  | none => none
  | some i => (l.get? i).map (fun r => (i, r))

/-- df.loc[i, "face"] = f: overwrite the face reference of row i, keeping
the other columns (no-op on an out-of-range id; all embedded calls stay in
range). -/
def locSetFace {α : Type} (l : List (EdgeRow α)) (i f : ℕ) : List (EdgeRow α) :=
  match l.get? i with
  | none => l
  | some r => l.set i { r with face := f }

/-- df.loc[i, "srce"] = v. -/
def locSetSrce {α : Type} (l : List (EdgeRow α)) (i v : ℕ) : List (EdgeRow α) :=
  match l.get? i with
  | none => l
  | some r => l.set i { r with srce := v }

/-- df.loc[i, "trgt"] = v. -/
def locSetTrgt {α : Type} (l : List (EdgeRow α)) (i v : ℕ) : List (EdgeRow α) :=
  match l.get? i with
  | none => l
  | some r => l.set i { r with trgt := v }

/-- df.loc[i, ["srce", "trgt", "face"]] = s, t, f. -/
def locSetSTF {α : Type} (l : List (EdgeRow α)) (i s t f : ℕ) : List (EdgeRow α) :=
  match l.get? i with
  | none => l
  | some r => l.set i { r with srce := s, trgt := t, face := f }

/-- Modelled from the spec: sheet.reset_topo() invalidates and rebuilds
cached per-face edge orderings and coordinate-delta columns after a
structural edit; the embedded sheet stores no such caches, so it is the
identity on this record. -/
def reset_topo {α : Type} (s : SheetT α) : SheetT α := s

/-- type1_transition from sheet_topology.py.  The five neighbour lookups
(.index[0] on filtered frames) are performed first; any empty selection
raises IndexError, embedded as an error value (reached before any
mutation).  Then the six edge rows are reassigned, vert0 and vert1 are
displaced toward the centroids of cell_b and cell_d by epsilon, and
reset_topo concludes.  The source repeats the edge13 lookup verbatim; the
repetition returns the same result and is folded into one lookup here. -/
def type1_transition {α : Type} [Field α] (sheet : SheetT α) (edge01 : ℕ)
    (epsilon : α) : Except String (SheetT α) :=
  match sheet.edge_df.get? edge01 with
  | none => .error "KeyError: edge01"
  | some e01 =>
    let vert0 := e01.srce
    let vert1 := e01.trgt
    let cell_b := e01.face
    match ilocFirst sheet.edge_df (fun e => e.srce == vert1 && e.trgt == vert0) with
    | none => .error "IndexError: edge10"
    | some (edge10, r10) =>
      let cell_d := r10.face
      match ilocFirst sheet.edge_df (fun e => e.srce == vert0 && e.face == cell_d) with
      | none => .error "IndexError: edge05"
      | some (edge05, r05) =>
        let vert5 := r05.trgt
        match ilocFirst sheet.edge_df (fun e => e.srce == vert5 && e.trgt == vert0) with
        | none => .error "IndexError: edge50"
        | some (edge50, r50) =>
          let cell_a := r50.face
          match ilocFirst sheet.edge_df (fun e => e.srce == vert1 && e.face == cell_b) with
          | none => .error "IndexError: edge13"
          | some (edge13, r13) =>
            let vert3 := r13.trgt
            match ilocFirst sheet.edge_df (fun e => e.srce == vert3 && e.trgt == vert1) with
            | none => .error "IndexError: edge31"
            | some (edge31, r31) =>
              let cell_c := r31.face
              let ed := locSetFace sheet.edge_df edge01 cell_c
              let ed := locSetFace ed edge10 cell_a
              let ed := locSetSTF ed edge13 vert0 vert3 cell_b
              let ed := locSetSTF ed edge31 vert3 vert0 cell_c
              let ed := locSetSTF ed edge50 vert5 vert1 cell_a
              let ed := locSetSTF ed edge05 vert1 vert5 cell_d
              match sheet.vert_df.get? vert0, sheet.vert_df.get? vert1,
                  sheet.face_df.get? cell_b, sheet.face_df.get? cell_d with
              | some w0, some w1, some fb, some fd =>
                let mean_pos := fun c => (w0 c + w1 c) / 2
                let new0 := fun c =>
                  if sheet.coords.contains c then
                    mean_pos c - (mean_pos c - fb c) * epsilon
                  else w0 c
                let new1 := fun c =>
                  if sheet.coords.contains c then
                    mean_pos c - (mean_pos c - fd c) * epsilon
                  else w1 c
                let vd := (sheet.vert_df.set vert0 new0).set vert1 new1
                .ok (reset_topo { sheet with edge_df := ed, vert_df := vd })
              | _, _, _, _ => .error "KeyError: vertex or face row"

/-- add_vert from sheet_topology.py: the opposite-edge lookup, the new
midpoint vertex row (the element-wise mean over every vertex column of the
two endpoint rows), rewiring of the split edge and its opposite onto the
new vertex, and the two appended continuation edges copied (all columns)
from the split edge and from its opposite, then rewired.  Returns the new
vertex and edge ids (appends with ignore_index reindex to 0..n-1, so the
new id is the previous row count). -/
def add_vert {α : Type} [Field α] (sheet : SheetT α) (edge : ℕ) :
    Except String (SheetT α × ℕ × ℕ × ℕ) :=
  match sheet.edge_df.get? edge with
  | none => .error "KeyError: edge"
  | some er =>
    let srce := er.srce
    let trgt := er.trgt
    match ilocFirst sheet.edge_df (fun e => e.srce == trgt && e.trgt == srce) with
    | none => .error "IndexError: opposite edge"
    | some (opp_edge, _) =>
      match sheet.vert_df.get? srce, sheet.vert_df.get? trgt with
      | some rs, some rt =>
        let new_vert_row : String → α := fun c => (rs c + rt c) / 2
        let vd := sheet.vert_df ++ [new_vert_row]
        let new_vert := sheet.vert_df.length
        let ed := locSetTrgt sheet.edge_df edge new_vert
        let ed := locSetSrce ed opp_edge new_vert
        let edge_cols := (ed.get? edge).getD er
        let ed := ed ++ [edge_cols]
        let new_edge := ed.length - 1
        let ed := locSetSrce ed new_edge new_vert
        let ed := locSetTrgt ed new_edge trgt
        let opp_cols := (ed.get? opp_edge).getD er
        let ed := ed ++ [opp_cols]
        let new_opp_edge := ed.length - 1
        let ed := locSetTrgt ed new_opp_edge new_vert
        let ed := locSetSrce ed new_opp_edge trgt
        .ok ({ sheet with vert_df := vd, edge_df := ed },
          new_vert, new_edge, new_opp_edge)
      | _, _ => .error "KeyError: vertex row"

/-- A geometry module as cell_division sees it: its class name, Python
attribute lookup for the vertex-projection method it fetches (signature
sheet, face, psi, returning the projected x coordinate per source-vertex
id), and update_all. -/
structure GeomModule (α : Type) : Type where
  name : String
  getattr : String → Option (SheetT α → ℕ → α → List (ℕ × α))
  update_all : SheetT α → SheetT α

/-- The attribute surface of the SheetGeometry class of sheet_geometry.py:
the class defines update_all, update_normals, update_areas, update_vol,
update_height, reset_scafold, face_rotation and face_projected_pos; the
only projection-typed attribute is face_projected_pos (implemented with an
SVD, not embedded: the body is a parameter).  There is no attribute named
face_proedgected_pos. -/
def SheetGeometry.moduleSurface {α : Type}
    (fpp : SheetT α → ℕ → α → List (ℕ × α)) (upd : SheetT α → SheetT α) :
    GeomModule α :=
  { name := "SheetGeometry"
  , getattr := fun n => if n = "face_projected_pos" then some fpp else none
  , update_all := upd }

/-- cell_division from sheet_topology.py: the dead-mother guard (log a
warning and return, leaving the sheet untouched), the random angle when
none is given (np.random.random() * pi, modelled as the explicit
random_angle input), the projected positions via the attribute lookup
geom.face_proedgected_pos (AttributeError when the module has no such
attribute, as SheetGeometry does not), the straddling-edge selection, the
two add_vert insertions, the daughter face and division edges, the face
reassignment of the negative-side edges, reset_topo and the final
geom.update_all. -/
def cell_division {α : Type} [LinearOrderedField α] (sheet : SheetT α)
    (mother : ℕ) (geom : GeomModule α) (angle : Option α) (random_angle : α) :
    Except String (SheetT α × List String) :=
  match sheet.face_df.get? mother with
  | none => .error "KeyError: mother"
  | some mrow =>
    if mrow "is_alive" = 0 then
      .ok (sheet, ["Cell " ++ toString mother ++ " is not alive and cannot devide"])
    else
      let psi := angle.getD random_angle
      let m_data := sheet.edge_df.enum.filter (fun p => p.2.face == mother)
      match geom.getattr "face_proedgected_pos" with
      | none =>
        .error ("AttributeError: " ++ geom.name ++
          " has no attribute face_proedgected_pos")
      | some fpp =>
        let rot_pos := fpp sheet mother psi
        let srce_pos := fun p : ℕ × EdgeRow α => (rot_pos.lookup p.2.srce).getD 0
        let trgt_pos := fun p : ℕ × EdgeRow α => (rot_pos.lookup p.2.trgt).getD 0
        match (m_data.filter
            (fun p => decide (srce_pos p < 0) && decide (trgt_pos p > 0))).head?,
          (m_data.filter
            (fun p => decide (srce_pos p > 0) && decide (trgt_pos p < 0))).head? with
        | some pa, some pb =>
          match add_vert sheet pa.1 with
          | .error msg => .error msg
          | .ok (sheet1, vert_a, _, _) =>
            match add_vert sheet1 pb.1 with
            | .error msg => .error msg
            | .ok (sheet2, vert_b, new_edge_b, _) =>
              let fd := sheet2.face_df ++ [mrow]
              let daughter := fd.length - 1
              let edge_cols := (sheet2.edge_df.get? new_edge_b).getD pa.2
              let ed := sheet2.edge_df ++ [edge_cols]
              let new_edge_m := ed.length - 1
              let ed := locSetSrce ed new_edge_m vert_b
              let ed := locSetTrgt ed new_edge_m vert_a
              let ed := ed ++ [edge_cols]
              let new_edge_d := ed.length - 1
              let ed := locSetSrce ed new_edge_d vert_a
              let ed := locSetTrgt ed new_edge_d vert_b
              let daughter_edges :=
                ((m_data.filter (fun p => decide (srce_pos p < 0))).map
                  (fun p => p.1)) ++ [new_edge_b, new_edge_d]
              let ed := daughter_edges.foldl (fun acc i => locSetFace acc i daughter) ed
              let sheet3 := reset_topo { sheet2 with edge_df := ed, face_df := fd }
              .ok (geom.update_all sheet3, [])
        | _, _ => .error "IndexError: edge_a or edge_b"

/-!  ## Face-cycle bookkeeping for claim C7 -/

/-- The multiset of source-vertex ids of the edges of face f. -/
def faceSrces {α : Type} (s : SheetT α) (f : ℕ) : Multiset ℕ :=
  ((s.edge_df.filter (fun e => e.face == f)).map EdgeRow.srce : List ℕ)

/-- The multiset of target-vertex ids of the edges of face f. -/
def faceTrgts {α : Type} (s : SheetT α) (f : ℕ) : Multiset ℕ :=
  ((s.edge_df.filter (fun e => e.face == f)).map EdgeRow.trgt : List ℕ)

/-- A face is balanced when every vertex occurs as often as a source as it
does as a target among the face's edges; this is the structural form of
"the face's edges, traversed in stored order, form closed polygonal
cycles", and makes the face's displacement-vector sum vanish for every
position assignment. -/
def faceBalanced {α : Type} (s : SheetT α) (f : ℕ) : Prop :=
  faceSrces s f = faceTrgts s f

instance {α : Type} (s : SheetT α) (f : ℕ) : Decidable (faceBalanced s f) :=
  inferInstanceAs (Decidable (faceSrces s f = faceTrgts s f))

/-- A position column value of a vertex row (0 for an out-of-range id; the
displacement-sum conclusion is independent of the default because balanced
faces cancel sources against targets row by row). -/
def vertVal {α : Type} [Zero α] (s : SheetT α) (v : ℕ) (c : String) : α :=
  ((s.vert_df.get? v).map (fun r => r c)).getD 0

/-- The per-face sum of edge displacement values along one coordinate
column: sum over the face's edges of (target value - source value). -/
def dispSum {α : Type} [Field α] (s : SheetT α) (f : ℕ) (c : String) : α :=
  ((s.edge_df.filter (fun e => e.face == f)).map
    (fun e => vertVal s e.trgt c - vertVal s e.srce c)).sum

/-- The signed contribution of one edge row to the (face, vertex) incidence
count: +1 as a source of f at v, -1 as a target. -/
def edgeContrib {α : Type} (e : EdgeRow α) (f v : ℕ) : ℤ :=
  (if e.face = f ∧ e.srce = v then 1 else 0) -
    (if e.face = f ∧ e.trgt = v then 1 else 0)

/-- The net source-minus-target incidence of vertex v in face f over an
edge table. -/
def netDeg {α : Type} (l : List (EdgeRow α)) (f v : ℕ) : ℤ :=
  (l.map (fun e => edgeContrib e f v)).sum

/-!  ## Concrete topology meshes -/

/-- A single triangular face: its edges have no opposites, so every edge
is a boundary edge (used for C4). -/
def C4sheet : SheetT ℚ :=
  { vert_df := [fun _ => 0, fun _ => 1, fun _ => 2]
  , edge_df :=
      [ ⟨0, 1, 0, fun _ => 0⟩
      , ⟨1, 2, 0, fun _ => 0⟩
      , ⟨2, 0, 0, fun _ => 0⟩ ]
  , face_df := [fun _ => 0]
  , coords := ["x", "y", "z"] }

/-- A single live triangular face (is_alive 1) for C5. -/
def C5sheet : SheetT ℚ :=
  { vert_df := [fun _ => 0, fun _ => 1, fun _ => 2]
  , edge_df :=
      [ ⟨0, 1, 0, fun _ => 0⟩
      , ⟨1, 2, 0, fun _ => 0⟩
      , ⟨2, 0, 0, fun _ => 0⟩ ]
  , face_df := [fun c => if c = "is_alive" then 1 else 0]
  , coords := ["x", "y", "z"] }

/-- A single dead triangular face (is_alive 0) for C8. -/
def C8sheet : SheetT ℚ :=
  { vert_df := [fun _ => 0, fun _ => 1, fun _ => 2]
  , edge_df :=
      [ ⟨0, 1, 0, fun _ => 0⟩
      , ⟨1, 2, 0, fun _ => 0⟩
      , ⟨2, 0, 0, fun _ => 0⟩ ]
  , face_df := [fun c => if c = "is_alive" then 0 else 1]
  , coords := ["x", "y", "z"] }

/-- Two vertices joined by a half-edge pair with distinct attribute
columns on the vertices (x, basal_shift) and on the edges (line_tension),
for C10. -/
def C10sheet : SheetT ℚ :=
  { vert_df :=
      [ fun c => if c = "x" then 0 else if c = "basal_shift" then 4 else 1
      , fun c => if c = "x" then 2 else if c = "basal_shift" then 8 else 1 ]
  , edge_df :=
      [ ⟨0, 1, 7, fun c => if c = "line_tension" then 3 else 0⟩
      , ⟨1, 0, 9, fun c => if c = "line_tension" then 5 else 0⟩ ]
  , face_df := []
  , coords := ["x", "y", "z"] }

/-- The classic four-cell neighbourhood of an interior edge for a T1
transition (C7): the central half-edge pair 0-1 separates faces 1 (cell_b,
triangle 0-1-2) and 3 (cell_d, triangle 1-0-3), flanked by face 0 (cell_a,
triangle 3-0-4) and face 2 (cell_c, triangle 2-1-5); every face is a
closed triangle. -/
def C7sheet : SheetT ℚ :=
  { vert_df :=
      [ fun c => if c = "x" then 0 else if c = "y" then 0 else 0
      , fun c => if c = "x" then 2 else if c = "y" then 0 else 0
      , fun c => if c = "x" then 1 else if c = "y" then 2 else 0
      , fun c => if c = "x" then 1 else if c = "y" then (-2) else 0
      , fun c => if c = "x" then (-1) else if c = "y" then (-1) else 0
      , fun c => if c = "x" then 3 else if c = "y" then 1 else 0 ]
  , edge_df :=
      [ ⟨0, 1, 1, fun _ => 0⟩
      , ⟨1, 2, 1, fun _ => 0⟩
      , ⟨2, 0, 1, fun _ => 0⟩
      , ⟨1, 0, 3, fun _ => 0⟩
      , ⟨0, 3, 3, fun _ => 0⟩
      , ⟨3, 1, 3, fun _ => 0⟩
      , ⟨3, 0, 0, fun _ => 0⟩
      , ⟨0, 4, 0, fun _ => 0⟩
      , ⟨4, 3, 0, fun _ => 0⟩
      , ⟨2, 1, 2, fun _ => 0⟩
      , ⟨1, 5, 2, fun _ => 0⟩
      , ⟨5, 2, 2, fun _ => 0⟩ ]
  , face_df := [fun _ => 0, fun _ => 1, fun _ => 2, fun _ => 3]
  , coords := ["x", "y", "z"] }

/-!  ## Geometry engine data model (sheet_geometry.py, claim C9) -/

/-- A vertex row of the geometry engine: position, basal_shift, the two
rod tip flags (numeric columns compared against 1), and the derived rho
and height. -/
structure GVert (α : Type) : Type where
  x : α
  y : α
  z : α
  basal_shift : α
  left_tip : α
  right_tip : α
  rho : α
  height : α
deriving DecidableEq, Repr

/-- An edge row of the geometry engine: references plus the derived
displacement, normal, length, sub_area and sub_vol columns. -/
structure GEdge (α : Type) : Type where
  srce : ℕ
  trgt : ℕ
  face : ℕ
  dx : α
  dy : α
  dz : α
  nx : α
  ny : α
  nz : α
  length : α
  sub_area : α
  sub_vol : α
deriving DecidableEq, Repr

/-- A face row of the geometry engine: centroid coordinates and the
derived area, perimeter, vol, height and rho columns. -/
structure GFace (α : Type) : Type where
  x : α
  y : α
  z : α
  area : α
  perimeter : α
  vol : α
  height : α
  rho : α
deriving DecidableEq, Repr

/-- The sheet as seen by the geometry engine, with the settings
update_height reads: geometry mode, height axis and the rod parameters
a, b. -/
structure GSheet (α : Type) : Type where
  vert_df : List (GVert α)
  edge_df : List (GEdge α)
  face_df : List (GFace α)
  geometry : GeomMode
  height_axis : Axis
  ab : α × α
deriving DecidableEq, Repr

/-- upcast_srce / upcast_trgt restricted to positions: the position of a
vertex row (zero vector for an out-of-range reference). -/
def GSheet.vertPos {α : Type} [Field α] (s : GSheet α) (i : ℕ) : Vec3 α :=
  ((s.vert_df.get? i).map (fun v => (⟨v.x, v.y, v.z⟩ : Vec3 α))).getD 0

/-- upcast_face restricted to positions: the centroid of a face row. -/
def GSheet.facePos {α : Type} [Field α] (s : GSheet α) (i : ℕ) : Vec3 α :=
  ((s.face_df.get? i).map (fun f => (⟨f.x, f.y, f.z⟩ : Vec3 α))).getD 0

/-- sheet.sum_face: sum an edge-level quantity over the edges of face f. -/
def GSheet.sum_face {α : Type} [Field α] (s : GSheet α) (g : GEdge α → α)
    (f : ℕ) : α :=
  ((s.edge_df.filter (fun e => e.face == f)).map g).sum

/-- The number of edges of face f (the group size of the level-"face"
mean). -/
def GSheet.count_face {α : Type} (s : GSheet α) (f : ℕ) : ℕ :=
  (s.edge_df.filter (fun e => e.face == f)).length

/-- Modelled from the spec: PlanarGeometry.update_dcoords (parent-class
method missing from src) recomputes the edge displacement vectors,
target position minus source position. -/
def SheetGeometry.update_dcoords {α : Type} [Field α] (s : GSheet α) : GSheet α :=
  { s with
    edge_df := s.edge_df.map (fun e =>
      let sp := s.vertPos e.srce
      let tp := s.vertPos e.trgt
      { e with dx := tp.x - sp.x, dy := tp.y - sp.y, dz := tp.z - sp.z }) }

/-- Modelled from the spec: PlanarGeometry.update_length (missing from
src) recomputes each edge length as the Euclidean norm of its
displacement vector; q is the square-root function. -/
def SheetGeometry.update_length {α : Type} [Field α] (q : α → α) (s : GSheet α) :
    GSheet α :=
  { s with
    edge_df := s.edge_df.map (fun e =>
      { e with length := q (e.dx ^ 2 + e.dy ^ 2 + e.dz ^ 2) }) }

/-- Modelled from the spec: PlanarGeometry.update_centroid (missing from
src) recomputes each face centroid as the mean of the positions of the
source vertices of the face's edges (the face's vertices' center of
mass). -/
def SheetGeometry.update_centroid {α : Type} [Field α] (s : GSheet α) : GSheet α :=
  { s with
    face_df := s.face_df.enum.map (fun p =>
      let n : α := (s.count_face p.1 : ℕ)
      { p.2 with
        x := s.sum_face (fun e => (s.vertPos e.srce).x) p.1 / n
        y := s.sum_face (fun e => (s.vertPos e.srce).y) p.1 / n
        z := s.sum_face (fun e => (s.vertPos e.srce).z) p.1 / n }) }

/-- SheetGeometry.update_height: per vertex, rho by geometry mode (see
rho_vert) and height = rho - basal_shift; then the per-face height and
rho as the mean over the face's edges of the upcast source values. -/
def SheetGeometry.update_height {α : Type} [LinearOrderedField α] (q : α → α)
    (s : GSheet α) : GSheet α :=
  let vd := s.vert_df.map (fun v =>
    let rho := rho_vert q s.geometry s.height_axis s.ab
      (decide (v.left_tip = 1)) (decide (v.right_tip = 1)) ⟨v.x, v.y, v.z⟩
    { v with rho := rho, height := rho - v.basal_shift })
  let s1 : GSheet α := { s with vert_df := vd }
  { s1 with
    face_df := s1.face_df.enum.map (fun p =>
      let n : α := (s1.count_face p.1 : ℕ)
      { p.2 with
        height := s1.sum_face
          (fun e => ((s1.vert_df.get? e.srce).map GVert.height).getD 0) p.1 / n
        rho := s1.sum_face
          (fun e => ((s1.vert_df.get? e.srce).map GVert.rho).getD 0) p.1 / n }) }

/-- SheetGeometry.update_normals: per edge, the cross product of
(source position - face centroid) with the displacement vector. -/
def SheetGeometry.update_normals {α : Type} [Field α] (s : GSheet α) : GSheet α :=
  { s with
    edge_df := s.edge_df.map (fun e =>
      let n := (s.vertPos e.srce - s.facePos e.face).cross ⟨e.dx, e.dy, e.dz⟩
      { e with nx := n.x, ny := n.y, nz := n.z }) }

/-- SheetGeometry.update_areas: per edge, sub_area = norm(normal) / 2;
per face, area = sum of its edges' sub_areas. -/
def SheetGeometry.update_areas {α : Type} [Field α] (q : α → α) (s : GSheet α) :
    GSheet α :=
  let s1 : GSheet α :=
    { s with
      edge_df := s.edge_df.map (fun e =>
        { e with sub_area := q (e.nx ^ 2 + e.ny ^ 2 + e.nz ^ 2) / 2 }) }
  { s1 with
    face_df := s1.face_df.enum.map (fun p =>
      { p.2 with area := s1.sum_face GEdge.sub_area p.1 }) }

/-- Modelled from the spec: PlanarGeometry.update_perimeters (missing from
src) recomputes each face perimeter as the sum of its edges' lengths. -/
def SheetGeometry.update_perimeters {α : Type} [Field α] (s : GSheet α) : GSheet α :=
  { s with
    face_df := s.face_df.enum.map (fun p =>
      { p.2 with perimeter := s.sum_face GEdge.length p.1 }) }

/-- SheetGeometry.update_vol: per edge, sub_vol = upcast source height *
sub_area; per face, vol = sum of its edges' sub_vols. -/
def SheetGeometry.update_vol {α : Type} [Field α] (s : GSheet α) : GSheet α :=
  let s1 : GSheet α :=
    { s with
      edge_df := s.edge_df.map (fun e =>
        { e with sub_vol :=
            ((s.vert_df.get? e.srce).map GVert.height).getD 0 * e.sub_area }) }
  { s1 with
    face_df := s1.face_df.enum.map (fun p =>
      { p.2 with vol := s1.sum_face GEdge.sub_vol p.1 }) }

/-- SheetGeometry.update_all, in the call order of the source: dcoords,
lengths, centroids, heights, normals, areas, perimeters, volumes. -/
def SheetGeometry.update_all {α : Type} [LinearOrderedField α] (q : α → α)
    (s : GSheet α) : GSheet α :=
  SheetGeometry.update_vol
    (SheetGeometry.update_perimeters
      (SheetGeometry.update_areas q
        (SheetGeometry.update_normals
          (SheetGeometry.update_height q
            (SheetGeometry.update_centroid
              (SheetGeometry.update_length q
                (SheetGeometry.update_dcoords s)))))))

/-- Stage 2 of update_all: dcoords then lengths. -/
def SheetGeometry.stageA2 {α : Type} [LinearOrderedField α] (q : α → α)
    (s : GSheet α) : GSheet α :=
  SheetGeometry.update_length q (SheetGeometry.update_dcoords s)

/-- Stage 4 of update_all: centroids then heights on top of stage 2. -/
def SheetGeometry.stageA4 {α : Type} [LinearOrderedField α] (q : α → α)
    (s : GSheet α) : GSheet α :=
  SheetGeometry.update_height q
    (SheetGeometry.update_centroid (SheetGeometry.stageA2 q s))

/-- Stage 7 of update_all: normals, areas and perimeters on top of
stage 4. -/
def SheetGeometry.stageA7 {α : Type} [LinearOrderedField α] (q : α → α)
    (s : GSheet α) : GSheet α :=
  SheetGeometry.update_perimeters
    (SheetGeometry.update_areas q
      (SheetGeometry.update_normals (SheetGeometry.stageA4 q s)))

/-- The edge row after the dcoords and length passes, in closed form. -/
def SheetGeometry.edge_pass1 {α : Type} [LinearOrderedField α] (q : α → α)
    (s : GSheet α) (e : GEdge α) : GEdge α :=
  let sp := s.vertPos e.srce
  let tp := s.vertPos e.trgt
  let dx := tp.x - sp.x
  let dy := tp.y - sp.y
  let dz := tp.z - sp.z
  { e with
    dx := dx, dy := dy, dz := dz,
    length := q (dx ^ 2 + dy ^ 2 + dz ^ 2) }

/-- The face centroid update_all stores for face f, in closed form over
the input sheet: the mean of the source-vertex positions of the face's
edges (zero vector for an out-of-range face id). -/
def SheetGeometry.centroid_pos {α : Type} [Field α] (s : GSheet α) (f : ℕ) :
    Vec3 α :=
  ((s.face_df.get? f).map (fun _ => (⟨
    s.sum_face (fun e => (s.vertPos e.srce).x) f / (s.count_face f : ℕ),
    s.sum_face (fun e => (s.vertPos e.srce).y) f / (s.count_face f : ℕ),
    s.sum_face (fun e => (s.vertPos e.srce).z) f / (s.count_face f : ℕ)⟩ :
      Vec3 α))).getD 0

/-- The vertex row update_all produces, in closed form over the input
sheet: rho by geometry mode and height = rho - basal_shift. -/
def SheetGeometry.vert_derived {α : Type} [LinearOrderedField α] (q : α → α)
    (s : GSheet α) (v : GVert α) : GVert α :=
  let rho := rho_vert q s.geometry s.height_axis s.ab
    (decide (v.left_tip = 1)) (decide (v.right_tip = 1)) ⟨v.x, v.y, v.z⟩
  { v with rho := rho, height := rho - v.basal_shift }

/-- The height column of the vertex update_all stores at id i (zero for an
out-of-range id), used by the closed-form sub_vol and face means. -/
def SheetGeometry.height_at {α : Type} [LinearOrderedField α] (q : α → α)
    (s : GSheet α) (i : ℕ) : α :=
  ((s.vert_df.get? i).map (fun v => (SheetGeometry.vert_derived q s v).height)).getD 0

/-- The rho column of the vertex update_all stores at id i. -/
def SheetGeometry.rho_at {α : Type} [LinearOrderedField α] (q : α → α)
    (s : GSheet α) (i : ℕ) : α :=
  ((s.vert_df.get? i).map (fun v => (SheetGeometry.vert_derived q s v).rho)).getD 0

/-- The edge row update_all produces, in closed form over the input sheet:
displacement, length, normal, sub_area and sub_vol from the vertex
positions, the stored centroid and the stored source height. -/
def SheetGeometry.edge_derived {α : Type} [LinearOrderedField α] (q : α → α)
    (s : GSheet α) (e : GEdge α) : GEdge α :=
  let sp := s.vertPos e.srce
  let tp := s.vertPos e.trgt
  let dx := tp.x - sp.x
  let dy := tp.y - sp.y
  let dz := tp.z - sp.z
  let len := q (dx ^ 2 + dy ^ 2 + dz ^ 2)
  let n := (sp - SheetGeometry.centroid_pos s e.face).cross ⟨dx, dy, dz⟩
  let sa := q (n.x ^ 2 + n.y ^ 2 + n.z ^ 2) / 2
  { e with
    dx := dx, dy := dy, dz := dz, nx := n.x, ny := n.y, nz := n.z,
    length := len, sub_area := sa,
    sub_vol := SheetGeometry.height_at q s e.srce * sa }

/-- The face row update_all produces for face index f, in closed form over
the input sheet. -/
def SheetGeometry.face_derived {α : Type} [LinearOrderedField α] (q : α → α)
    (s : GSheet α) (f : ℕ) : GFace α :=
  let n : α := (s.count_face f : ℕ)
  { x := s.sum_face (fun e => (s.vertPos e.srce).x) f / n,
    y := s.sum_face (fun e => (s.vertPos e.srce).y) f / n,
    z := s.sum_face (fun e => (s.vertPos e.srce).z) f / n,
    area := s.sum_face (fun e => (SheetGeometry.edge_derived q s e).sub_area) f,
    perimeter := s.sum_face (fun e => (SheetGeometry.edge_derived q s e).length) f,
    vol := s.sum_face (fun e => (SheetGeometry.edge_derived q s e).sub_vol) f,
    height := s.sum_face (fun e => SheetGeometry.height_at q s e.srce) f / n,
    rho := s.sum_face (fun e => SheetGeometry.rho_at q s e.srce) f / n }

lemma list_sum_map_add {α β : Type} [AddCommMonoid α] (l : List β) (f g : β → α) :
    (l.map (fun b => f b + g b)).sum = (l.map f).sum + (l.map g).sum := by
  induction l with
  | nil => simp
  | cons a l ih => simp [ih]; abel

lemma list_sum_map_div {α : Type} [DivisionRing α] (l : List α) (n : α) :
    (l.map (fun a => a / n)).sum = l.sum / n := by
  induction l with
  | nil => simp
  | cons a l ih => simp [ih, add_div]

/-- C2 counterexample: on C2sheet the full_output branch does not return
the three normalized component sums as one scalar each: the tension
component of the value actually returned is the two-element list of
per-edge normalized energies, not the single scalar sum the claim
states (the code omits the .sum() in the full_output branch and yields
per-element Series). -/
theorem compute_energy_full_output_is_not_scalar_sums :
    compute_energy_full_output C2sheet ≠
      ( [(compute_energy_full_output_spec C2sheet).1]
      , [(compute_energy_full_output_spec C2sheet).2.1]
      , [(compute_energy_full_output_spec C2sheet).2.2] ) := by
  intro h
  have h1 := congrArg (fun t : List ℚ × List ℚ × List ℚ => t.1.length) h
  norm_num [C2sheet, compute_energy_full_output, compute_energy_full_output_spec,
    live_je_df, live_cell_df, DSheet.upcast_cell, List.filter] at h1

/-- C2 as amended: the scalar branch of compute_energy returns exactly the
claimed normalized total (tension sum over edges incident to live faces
plus contractile and volume-elastic sums over live faces, divided by the
energy-normalization factor); the full_output branch returns the three
normalized components per element, in the order tension, contractility,
volume elasticity, whose sums are the three scalars the claim names. -/
theorem compute_energy_matches_claim {α : Type} [LinearOrderedField α] (s : DSheet α) :
    compute_energy s = compute_energy_spec s ∧
    (compute_energy_full_output s).1.sum = (compute_energy_full_output_spec s).1 ∧
    (compute_energy_full_output s).2.1.sum = (compute_energy_full_output_spec s).2.1 ∧
    (compute_energy_full_output s).2.2.sum = (compute_energy_full_output_spec s).2.2 := by
  refine ⟨?_, ?_, ?_, ?_⟩
  · unfold compute_energy compute_energy_spec
    rw [list_sum_map_add (live_cell_df s) (fun c => (1 / 2) * c.contractility * c.perimeter ^ 2)
      (fun c => elastic_energy c)]
    unfold elastic_energy
    ring
  · unfold compute_energy_full_output compute_energy_full_output_spec
    exact list_sum_map_div _ _
  · unfold compute_energy_full_output compute_energy_full_output_spec
    exact list_sum_map_div _ _
  · unfold compute_energy_full_output compute_energy_full_output_spec
    simp only [list_sum_map_div]
    unfold elastic_energy
    rfl

/-!  ## Helper lemmas -/

lemma Vec3.add_def {α : Type} [Add α] (a b : Vec3 α) :
    a + b = ⟨a.x + b.x, a.y + b.y, a.z + b.z⟩ := rfl

lemma Vec3.sub_def {α : Type} [Sub α] (a b : Vec3 α) :
    a - b = ⟨a.x - b.x, a.y - b.y, a.z - b.z⟩ := rfl

lemma Vec3.zero_def {α : Type} [Zero α] : (0 : Vec3 α) = ⟨0, 0, 0⟩ := rfl

lemma Vec3.smul_def {α : Type} [Mul α] (c : α) (v : Vec3 α) :
    c • v = ⟨c * v.x, c * v.y, c * v.z⟩ := rfl

lemma Vec3.x_zero {α : Type} [Zero α] : (0 : Vec3 α).x = 0 := rfl

lemma Vec3.y_zero {α : Type} [Zero α] : (0 : Vec3 α).y = 0 := rfl

lemma Vec3.z_zero {α : Type} [Zero α] : (0 : Vec3 α).z = 0 := rfl

/-!  ## Claim C1 -/

/-- C1: the claim states that compute_gradient returns the analytic
gradient of compute_energy for every mesh; the code cannot return at all:
sheet_vertex_model.py imports length_grad, which sheet_gradients.py does
not define (the import fails), and elastic_grad passes two positional
arguments to area_grad and height_grad, whose definitions take exactly
one (a TypeError on any call).  This theorem records the mismatch between
the imported and called names/arities and the defined ones. -/
theorem compute_gradient_import_and_arity_mismatch :
    ("length_grad" ∈ sheet_vertex_model_gradient_imports ∧
      sheet_gradients_defs.lookup "length_grad" = none) ∧
    ∀ c ∈ elastic_grad_internal_calls,
      ∃ n, sheet_gradients_defs.lookup c.1 = some n ∧ n ≠ c.2 := by
  decide

/-!  ## Claim C4 -/

/-- C4: on a boundary edge (here edge 0 of a lone triangle, which has no
opposite half-edge) type1_transition does not perform a logged no-op: the
opposite-edge lookup .index[0] on the empty selection raises IndexError.
The error is raised before any mutation, but it is an unrecoverable raise,
not the logged no-op return the claim requires. -/
theorem type1_transition_boundary_edge_raises :
    type1_transition C4sheet 0 (1 / 10 : ℚ) = .error "IndexError: edge10" := by
  rfl

/-!  ## Claim C5 -/

/-- C5: cell_division on a live mother face never reaches the projection:
it fetches geom.face_proedgected_pos, an attribute the geometry engine
does not define (its method is face_projected_pos), so the call raises
AttributeError for every live face regardless of the projection body. -/
theorem cell_division_attribute_error :
    cell_division C5sheet 0
      (SheetGeometry.moduleSurface (fun _ _ _ => ([] : List (ℕ × ℚ))) id)
      (some 0) 0 =
    .error "AttributeError: SheetGeometry has no attribute face_proedgected_pos" := by
  rfl

/-!  ## Claim C8 -/

/-- C8: cell_division on a face whose is_alive flag is 0 logs the warning
and returns with the sheet exactly as it was: no vertex, edge or face row
and no attribute column is touched. -/
theorem cell_division_dead_face_noop {α : Type} [LinearOrderedField α]
    (s : SheetT α) (mother : ℕ) (geom : GeomModule α) (angle : Option α)
    (random_angle : α) (mrow : String → α)
    (hm : s.face_df.get? mother = some mrow)
    (hdead : mrow "is_alive" = 0) :
    cell_division s mother geom angle random_angle =
      .ok (s, ["Cell " ++ toString mother ++ " is not alive and cannot devide"]) := by
  unfold cell_division
  rw [hm]
  simp [hdead]

/-- C8 witness: the dead triangle C8sheet is left untouched by
cell_division, which returns it with the warning message. -/
theorem cell_division_dead_face_noop_witness :
    C8sheet.face_df.get? 0 =
      some (fun c => if c = "is_alive" then (0 : ℚ) else 1) ∧
    cell_division C8sheet 0
      (SheetGeometry.moduleSurface (fun _ _ _ => ([] : List (ℕ × ℚ))) id) none 0 =
      .ok (C8sheet, ["Cell 0 is not alive and cannot devide"]) :=
  ⟨rfl, cell_division_dead_face_noop C8sheet 0
    (SheetGeometry.moduleSurface (fun _ _ _ => ([] : List (ℕ × ℚ))) id) none 0
    (fun c => if c = "is_alive" then (0 : ℚ) else 1) rfl rfl⟩

/-!  ## Claim C6 -/

/-- C6: no execution normalizes a gradient at all.  For every mesh,
compute_gradient raises: its module's import of length_grad fails (and
past it, elastic_grad's two-argument calls to the one-parameter area_grad
raise TypeError), so the function never returns; meanwhile dimentionalize
stores grad_norm_factor = Kv * A0 ** 1.5 * h0 ** 2 while the division in
the code's text reads sheet.nrj_norm_factor = Kv * (A0 * h0) ** 2, a
different value - so the claimed normalization by grad_norm_factor is
never performed. -/
theorem compute_gradient_raises_before_normalizing {α : Type}
    [LinearOrderedField α] (s : DSheet α) (q : α → α) (m : ModSpecs α) :
    compute_gradient s = .error
      "ImportError: cannot import name length_grad from tyssue.dynamics.sheet_gradients" ∧
    elastic_grad s = .error
      "TypeError: area_grad() takes 1 positional argument but 2 were given" ∧
    (dimentionalize q m).grad_norm_factor =
      m.vol_elasticity * (m.prefered_area * q m.prefered_area) *
        m.prefered_height ^ 2 ∧
    (dimentionalize q m).nrj_norm_factor =
      m.vol_elasticity * (m.prefered_area * m.prefered_height) ^ 2 :=
  ⟨rfl, rfl, rfl, rfl⟩

/-!  ## Lookup and loc-assignment lemmas -/

lemma ilocFirst_eq_some {β : Type} {l : List β} {p : β → Bool} {i : ℕ} {r : β}
    (h : ilocFirst l p = some (i, r)) :
    l.get? i = some r ∧ p r = true := by
  unfold ilocFirst at h
  cases hf : l.findIdx? p with
  | none => simp [hf] at h
  | some j =>
    simp only [hf, List.get?_eq_getElem?] at h
    cases hg : l[j]? with
    | none => simp [hg] at h
    | some r0 =>
      rw [hg] at h
      simp only [Option.map_some', Option.some_inj, Prod.mk.injEq] at h
      obtain ⟨hi, hr⟩ := h
      subst hi; subst hr
      have hp := List.findIdx?_of_eq_some hf
      simp only [hg] at hp
      exact ⟨by rw [List.get?_eq_getElem?, hg], hp⟩

lemma get?_lt_length {β : Type} {l : List β} {i : ℕ} {r : β}
    (h : l.get? i = some r) : i < l.length := by
  by_contra hc
  rw [List.get?_eq_none.mpr (Nat.le_of_not_lt hc)] at h
  exact Option.noConfusion h

lemma locSetFace_length {α : Type} (l : List (EdgeRow α)) (i f : ℕ) :
    (locSetFace l i f).length = l.length := by
  unfold locSetFace; cases l.get? i <;> simp

lemma locSetSrce_length {α : Type} (l : List (EdgeRow α)) (i v : ℕ) :
    (locSetSrce l i v).length = l.length := by
  unfold locSetSrce; cases l.get? i <;> simp

lemma locSetTrgt_length {α : Type} (l : List (EdgeRow α)) (i v : ℕ) :
    (locSetTrgt l i v).length = l.length := by
  unfold locSetTrgt; cases l.get? i <;> simp

lemma locSetSTF_length {α : Type} (l : List (EdgeRow α)) (i a b f : ℕ) :
    (locSetSTF l i a b f).length = l.length := by
  unfold locSetSTF; cases l.get? i <;> simp

lemma locSetFace_get?_self {α : Type} {l : List (EdgeRow α)} {i f : ℕ}
    {r : EdgeRow α} (h : l.get? i = some r) :
    (locSetFace l i f).get? i = some { r with face := f } := by
  unfold locSetFace
  rw [h]
  exact List.get?_set_eq_of_lt _ (get?_lt_length h)

lemma locSetSrce_get?_self {α : Type} {l : List (EdgeRow α)} {i v : ℕ}
    {r : EdgeRow α} (h : l.get? i = some r) :
    (locSetSrce l i v).get? i = some { r with srce := v } := by
  unfold locSetSrce
  rw [h]
  exact List.get?_set_eq_of_lt _ (get?_lt_length h)

lemma locSetTrgt_get?_self {α : Type} {l : List (EdgeRow α)} {i v : ℕ}
    {r : EdgeRow α} (h : l.get? i = some r) :
    (locSetTrgt l i v).get? i = some { r with trgt := v } := by
  unfold locSetTrgt
  rw [h]
  exact List.get?_set_eq_of_lt _ (get?_lt_length h)

lemma locSetSTF_get?_self {α : Type} {l : List (EdgeRow α)} {i a b f : ℕ}
    {r : EdgeRow α} (h : l.get? i = some r) :
    (locSetSTF l i a b f).get? i = some { r with srce := a, trgt := b, face := f } := by
  unfold locSetSTF
  rw [h]
  exact List.get?_set_eq_of_lt _ (get?_lt_length h)

lemma locSetFace_get?_ne {α : Type} (l : List (EdgeRow α)) (i f j : ℕ)
    (h : j ≠ i) : (locSetFace l i f).get? j = l.get? j := by
  unfold locSetFace
  cases l.get? i <;> simp [List.getElem?_set_ne, Ne.symm h]

lemma locSetSrce_get?_ne {α : Type} (l : List (EdgeRow α)) (i v j : ℕ)
    (h : j ≠ i) : (locSetSrce l i v).get? j = l.get? j := by
  unfold locSetSrce
  cases l.get? i <;> simp [List.getElem?_set_ne, Ne.symm h]

lemma locSetTrgt_get?_ne {α : Type} (l : List (EdgeRow α)) (i v j : ℕ)
    (h : j ≠ i) : (locSetTrgt l i v).get? j = l.get? j := by
  unfold locSetTrgt
  cases l.get? i <;> simp [List.getElem?_set_ne, Ne.symm h]

lemma locSetSTF_get?_ne {α : Type} (l : List (EdgeRow α)) (i a b f j : ℕ)
    (h : j ≠ i) : (locSetSTF l i a b f).get? j = l.get? j := by
  unfold locSetSTF
  cases l.get? i <;> simp [List.getElem?_set_ne, Ne.symm h]

/-!  ## Claim C10 -/

/-- C10: for an edge with an opposite, add_vert appends the new vertex as
the element-wise mean of the two endpoint rows over every vertex column,
and the two appended edge rows inherit every attribute column and the
face id from the split edge and from the opposite edge respectively,
rewired as new_vert -> trgt and trgt -> new_vert. -/
theorem add_vert_inherits_parent_rows {α : Type} [Field α]
    (s : SheetT α) (edge oi : ℕ) (er orow : EdgeRow α) (rs rt : String → α)
    (he : s.edge_df.get? edge = some er)
    (ho : ilocFirst s.edge_df (fun e => e.srce == er.trgt && e.trgt == er.srce) =
      some (oi, orow))
    (hne : oi ≠ edge)
    (hrs : s.vert_df.get? er.srce = some rs)
    (hrt : s.vert_df.get? er.trgt = some rt) :
    ∃ s2, add_vert s edge =
        .ok (s2, s.vert_df.length, s.edge_df.length, s.edge_df.length + 1) ∧
      s2.vert_df.get? s.vert_df.length = some (fun c => (rs c + rt c) / 2) ∧
      s2.edge_df.get? s.edge_df.length =
        some ⟨s.vert_df.length, er.trgt, er.face, er.attrs⟩ ∧
      s2.edge_df.get? (s.edge_df.length + 1) =
        some ⟨er.trgt, s.vert_df.length, orow.face, orow.attrs⟩ := by
  have hoget := (ilocFirst_eq_some ho).1
  have hEdgeNeOi : edge ≠ oi := fun hh => hne hh.symm
  have hLtO : oi < s.edge_df.length := get?_lt_length hoget
  simp only [add_vert, he, ho, hrs, hrt]
  set nv := s.vert_df.length with hnv
  have h_ec :
      ((locSetSrce (locSetTrgt s.edge_df edge nv) oi nv).get? edge).getD er =
        { er with trgt := nv } := by
    rw [locSetSrce_get?_ne _ _ _ _ hEdgeNeOi, locSetTrgt_get?_self he]
    rfl
  simp only [h_ec]
  have h_lenA :
      (locSetSrce (locSetTrgt s.edge_df edge nv) oi nv).length =
        s.edge_df.length := by
    simp [locSetSrce_length, locSetTrgt_length]
  simp only [List.length_append, h_lenA, locSetSrce_length, locSetTrgt_length,
    List.length_cons, List.length_nil, Nat.add_sub_cancel]
  have hA_oi :
      (locSetSrce (locSetTrgt s.edge_df edge nv) oi nv).get? oi =
        some { orow with srce := nv } := by
    have h1 : (locSetTrgt s.edge_df edge nv).get? oi = some orow := by
      rw [locSetTrgt_get?_ne _ _ _ _ hne]; exact hoget
    exact locSetSrce_get?_self h1
  have h_oc :
      ((locSetTrgt
          (locSetSrce
            (locSetSrce (locSetTrgt s.edge_df edge nv) oi nv ++
              [{ er with trgt := nv }])
            s.edge_df.length nv)
          s.edge_df.length er.trgt).get? oi).getD er =
        { orow with srce := nv } := by
    rw [locSetTrgt_get?_ne _ _ _ _ (Nat.ne_of_lt hLtO),
      locSetSrce_get?_ne _ _ _ _ (Nat.ne_of_lt hLtO),
      List.get?_append (by rw [h_lenA]; exact hLtO), hA_oi]
    rfl
  simp only [h_oc]
  refine ⟨_, rfl, ?_, ?_, ?_⟩
  · exact List.get?_concat_length _ _
  · have hcat :
        ((locSetSrce (locSetTrgt s.edge_df edge nv) oi nv ++
          [{ er with trgt := nv }]).get? s.edge_df.length) =
          some { er with trgt := nv } := by
      rw [← h_lenA]
      exact List.get?_concat_length _ _
    have h4 := locSetSrce_get?_self (v := nv) hcat
    have h5 := locSetTrgt_get?_self (v := er.trgt) h4
    rw [locSetSrce_get?_ne _ _ _ _ (Nat.ne_of_lt (Nat.lt_succ_self _)),
      locSetTrgt_get?_ne _ _ _ _ (Nat.ne_of_lt (Nat.lt_succ_self _)),
      List.get?_append (by
        simp [locSetSrce_length, locSetTrgt_length, List.length_append, h_lenA]),
      h5]
  · have hlen5 :
        (locSetTrgt
          (locSetSrce
            (locSetSrce (locSetTrgt s.edge_df edge nv) oi nv ++
              [{ er with trgt := nv }])
            s.edge_df.length nv)
          s.edge_df.length er.trgt).length = s.edge_df.length + 1 := by
      simp [locSetSrce_length, locSetTrgt_length, List.length_append, h_lenA]
    have hcat :
        ((locSetTrgt
            (locSetSrce
              (locSetSrce (locSetTrgt s.edge_df edge nv) oi nv ++
                [{ er with trgt := nv }])
              s.edge_df.length nv)
            s.edge_df.length er.trgt ++
          [{ orow with srce := nv }]).get? (s.edge_df.length + 1)) =
          some { orow with srce := nv } := by
      rw [← hlen5]
      exact List.get?_concat_length _ _
    have h6 := locSetTrgt_get?_self (v := nv) hcat
    have h7 := locSetSrce_get?_self (v := er.trgt) h6
    rw [h7]

/-- C10 witness: splitting edge 0 of C10sheet creates vertex 2 averaging
every column of vertices 0 and 1, and edges 2, 3 inheriting face id and
line_tension from edge 0 and from its opposite edge 1 respectively. -/
theorem add_vert_inherits_parent_rows_witness :
    (C10sheet.edge_df.get? 0 =
      some ⟨0, 1, 7, fun c => if c = "line_tension" then (3 : ℚ) else 0⟩) ∧
    ∃ s2, add_vert C10sheet 0 = .ok (s2, 2, 2, 3) ∧
      s2.vert_df.get? 2 = some (fun c =>
        ((if c = "x" then (0 : ℚ) else if c = "basal_shift" then 4 else 1) +
          (if c = "x" then (2 : ℚ) else if c = "basal_shift" then 8 else 1)) / 2) ∧
      s2.edge_df.get? 2 =
        some ⟨2, 1, 7, fun c => if c = "line_tension" then (3 : ℚ) else 0⟩ ∧
      s2.edge_df.get? 3 =
        some ⟨1, 2, 9, fun c => if c = "line_tension" then (5 : ℚ) else 0⟩ :=
  ⟨rfl, add_vert_inherits_parent_rows C10sheet 0 1
    ⟨0, 1, 7, fun c => if c = "line_tension" then (3 : ℚ) else 0⟩
    ⟨1, 0, 9, fun c => if c = "line_tension" then (5 : ℚ) else 0⟩
    (fun c => if c = "x" then (0 : ℚ) else if c = "basal_shift" then 4 else 1)
    (fun c => if c = "x" then (2 : ℚ) else if c = "basal_shift" then 8 else 1)
    rfl rfl (by decide) rfl rfl⟩

/-!  ## Claim C3 -/

lemma deriv_sqrt_sq_add (a c : ℝ) (h : a ^ 2 + c ≠ 0) :
    HasDerivAt (fun t : ℝ => Real.sqrt ((a + t) ^ 2 + c))
      (a / Real.sqrt (a ^ 2 + c)) 0 := by
  have h1 : HasDerivAt (fun t : ℝ => a + t) 1 0 := (hasDerivAt_id 0).const_add a
  have h2 := (h1.pow 2).add_const c
  have h0 : (fun t : ℝ => (a + t) ^ 2 + c) 0 ≠ 0 := by simpa using h
  have h3 := h2.sqrt h0
  convert h3 using 1
  rw [add_zero, pow_one, mul_one]
  push_cast
  rw [mul_div_mul_left _ _ (by norm_num : (2 : ℝ) ≠ 0)]

lemma deriv_sqrt_quadratic (a c shift rho : ℝ)
    (hrho : rho = Real.sqrt (a ^ 2 + c)) (hne : rho ≠ 0) :
    deriv (fun t : ℝ => Real.sqrt ((a + t) ^ 2 + c) - shift) 0 = a / rho := by
  have hS : a ^ 2 + c ≠ 0 := by
    intro h0
    rw [h0, Real.sqrt_zero] at hrho
    exact hne hrho
  have h := (deriv_sqrt_sq_add a c hS).sub_const shift
  rw [h.deriv, hrho]

/-- C3 counterexample: the height gradient is not the vector derivative of
the section 4.2 height for every accepted mode and axis.  In flat mode
with height axis x, the code returns the fixed vector (0, 0, 1) whose x
component 0 differs from the derivative 1 of the height (the x
coordinate) along x; in rod mode no branch applies (UnboundLocalError);
in cylindrical mode with height axis x the x component x / rho = 7/5
differs from the derivative 0 of the height (which does not depend on the
x coordinate when x is the axis). -/
theorem height_grad_mode_axis_counterexample :
    (height_grad GeomMode.flat (⟨2, 3, 5, 2, 2⟩ : DJv ℝ) = some ⟨0, 0, 1⟩ ∧
      deriv (fun t : ℝ => height_vert Real.sqrt GeomMode.flat Axis.x (0, 0)
        false false 0 (bumpAxis Axis.x ⟨2, 3, 5⟩ t)) 0 = 1 ∧ (0 : ℝ) ≠ 1) ∧
    height_grad GeomMode.rod (⟨3, 4, 0, 5, 5⟩ : DJv ℝ) = none ∧
    (height_grad GeomMode.cylindrical (⟨7, 3, 4, 5, 5⟩ : DJv ℝ) =
        some ⟨7 / 5, 3 / 5, 0⟩ ∧
      deriv (fun t : ℝ => height_vert Real.sqrt GeomMode.cylindrical Axis.x (0, 0)
        false false 0 (bumpAxis Axis.x ⟨7, 3, 4⟩ t)) 0 = 0 ∧ (7 / 5 : ℝ) ≠ 0) := by
  refine ⟨⟨rfl, ?_, by norm_num⟩, rfl, rfl, ?_, by norm_num⟩
  · show deriv (fun t : ℝ => 2 + t - 0) 0 = 1
    have h : (fun t : ℝ => 2 + t - 0) = fun t : ℝ => t + 2 := by
      funext t; ring
    rw [h, deriv_add_const]
    exact deriv_id 0
  · show deriv (fun t : ℝ => Real.sqrt (4 ^ 2 + 3 ^ 2) - 0) 0 = 0
    exact deriv_const 0 _

/-- C3 as amended: the height gradient of sheet_gradients.py equals the
per-axis derivatives of the section 4.2 height exactly for spherical mode
(any height axis, which the height ignores) and for flat and cylindrical
modes when the configured height axis is z (the gradients hard-code z);
for rod mode the gradient is undefined (no branch).  The stored rho must
be fresh (equal to the update_height value) and nonzero where divided. -/
theorem height_grad_matches_height_derivative
    (mode : GeomMode) (w : Axis) (v : DJv ℝ) (shift : ℝ)
    (hmode : mode = GeomMode.spherical ∨
      ((mode = GeomMode.flat ∨ mode = GeomMode.cylindrical) ∧ w = Axis.z))
    (hrho : v.rho = rho_vert Real.sqrt mode w (0, 0) false false ⟨v.x, v.y, v.z⟩)
    (hne : v.rho ≠ 0) :
    (∃ g, height_grad mode v = some g ∧
      g.x = deriv (fun t => height_vert Real.sqrt mode w (0, 0) false false shift
        (bumpAxis Axis.x ⟨v.x, v.y, v.z⟩ t)) 0 ∧
      g.y = deriv (fun t => height_vert Real.sqrt mode w (0, 0) false false shift
        (bumpAxis Axis.y ⟨v.x, v.y, v.z⟩ t)) 0 ∧
      g.z = deriv (fun t => height_vert Real.sqrt mode w (0, 0) false false shift
        (bumpAxis Axis.z ⟨v.x, v.y, v.z⟩ t)) 0) ∧
    height_grad GeomMode.rod v = none := by
  refine ⟨?_, rfl⟩
  rcases hmode with hsph | ⟨hfc, hw⟩
  · subst hsph
    refine ⟨⟨v.x / v.rho, v.y / v.rho, v.z / v.rho⟩, rfl, ?_, ?_, ?_⟩
    · have he : (fun t : ℝ => height_vert Real.sqrt GeomMode.spherical w (0, 0)
          false false shift (bumpAxis Axis.x ⟨v.x, v.y, v.z⟩ t)) =
          fun t : ℝ => Real.sqrt ((v.x + t) ^ 2 + (v.y ^ 2 + v.z ^ 2)) - shift := by
        funext t
        show Real.sqrt ((v.x + t) ^ 2 + v.y ^ 2 + v.z ^ 2) - shift = _
        rw [add_assoc]
      have h1 : v.rho = Real.sqrt (v.x ^ 2 + (v.y ^ 2 + v.z ^ 2)) := by
        rw [hrho]
        show Real.sqrt (v.x ^ 2 + v.y ^ 2 + v.z ^ 2) = _
        rw [add_assoc]
      rw [he, deriv_sqrt_quadratic v.x (v.y ^ 2 + v.z ^ 2) shift v.rho h1 hne]
    · have he : (fun t : ℝ => height_vert Real.sqrt GeomMode.spherical w (0, 0)
          false false shift (bumpAxis Axis.y ⟨v.x, v.y, v.z⟩ t)) =
          fun t : ℝ => Real.sqrt ((v.y + t) ^ 2 + (v.x ^ 2 + v.z ^ 2)) - shift := by
        funext t
        show Real.sqrt (v.x ^ 2 + (v.y + t) ^ 2 + v.z ^ 2) - shift = _
        rw [show v.x ^ 2 + (v.y + t) ^ 2 + v.z ^ 2 =
          (v.y + t) ^ 2 + (v.x ^ 2 + v.z ^ 2) from by ring]
      have h1 : v.rho = Real.sqrt (v.y ^ 2 + (v.x ^ 2 + v.z ^ 2)) := by
        rw [hrho]
        show Real.sqrt (v.x ^ 2 + v.y ^ 2 + v.z ^ 2) = _
        rw [show v.x ^ 2 + v.y ^ 2 + v.z ^ 2 =
          v.y ^ 2 + (v.x ^ 2 + v.z ^ 2) from by ring]
      rw [he, deriv_sqrt_quadratic v.y (v.x ^ 2 + v.z ^ 2) shift v.rho h1 hne]
    · have he : (fun t : ℝ => height_vert Real.sqrt GeomMode.spherical w (0, 0)
          false false shift (bumpAxis Axis.z ⟨v.x, v.y, v.z⟩ t)) =
          fun t : ℝ => Real.sqrt ((v.z + t) ^ 2 + (v.x ^ 2 + v.y ^ 2)) - shift := by
        funext t
        show Real.sqrt (v.x ^ 2 + v.y ^ 2 + (v.z + t) ^ 2) - shift = _
        rw [show v.x ^ 2 + v.y ^ 2 + (v.z + t) ^ 2 =
          (v.z + t) ^ 2 + (v.x ^ 2 + v.y ^ 2) from by ring]
      have h1 : v.rho = Real.sqrt (v.z ^ 2 + (v.x ^ 2 + v.y ^ 2)) := by
        rw [hrho]
        show Real.sqrt (v.x ^ 2 + v.y ^ 2 + v.z ^ 2) = _
        rw [show v.x ^ 2 + v.y ^ 2 + v.z ^ 2 =
          v.z ^ 2 + (v.x ^ 2 + v.y ^ 2) from by ring]
      rw [he, deriv_sqrt_quadratic v.z (v.x ^ 2 + v.y ^ 2) shift v.rho h1 hne]
  · rcases hfc with hf | hc
    · subst hf; subst hw
      refine ⟨⟨0, 0, 1⟩, rfl, ?_, ?_, ?_⟩
      · show (0 : ℝ) = deriv (fun t : ℝ => v.z - shift) 0
        exact (deriv_const 0 _).symm
      · show (0 : ℝ) = deriv (fun t : ℝ => v.z - shift) 0
        exact (deriv_const 0 _).symm
      · show (1 : ℝ) = deriv (fun t : ℝ => v.z + t - shift) 0
        have h : (fun t : ℝ => v.z + t - shift) = fun t : ℝ => t + (v.z - shift) := by
          funext t; ring
        rw [h, deriv_add_const]
        exact (deriv_id 0).symm
    · subst hc; subst hw
      have h1 : v.rho = Real.sqrt (v.x ^ 2 + v.y ^ 2) := by
        rw [hrho]
        show Real.sqrt (v.y ^ 2 + v.x ^ 2) = _
        rw [show v.y ^ 2 + v.x ^ 2 = v.x ^ 2 + v.y ^ 2 from by ring]
      have h1y : v.rho = Real.sqrt (v.y ^ 2 + v.x ^ 2) := by
        rw [hrho]; rfl
      refine ⟨⟨v.x / v.rho, v.y / v.rho, 0⟩, rfl, ?_, ?_, ?_⟩
      · have he : (fun t : ℝ => height_vert Real.sqrt GeomMode.cylindrical Axis.z
            (0, 0) false false shift (bumpAxis Axis.x ⟨v.x, v.y, v.z⟩ t)) =
            fun t : ℝ => Real.sqrt ((v.x + t) ^ 2 + v.y ^ 2) - shift := by
          funext t
          show Real.sqrt (v.y ^ 2 + (v.x + t) ^ 2) - shift = _
          rw [show v.y ^ 2 + (v.x + t) ^ 2 = (v.x + t) ^ 2 + v.y ^ 2 from by ring]
        rw [he, deriv_sqrt_quadratic v.x (v.y ^ 2) shift v.rho h1 hne]
      · show v.y / v.rho =
          deriv (fun t : ℝ => Real.sqrt ((v.y + t) ^ 2 + v.x ^ 2) - shift) 0
        rw [deriv_sqrt_quadratic v.y (v.x ^ 2) shift v.rho h1y hne]
      · show (0 : ℝ) = deriv (fun t : ℝ => Real.sqrt (v.y ^ 2 + v.x ^ 2) - shift) 0
        exact (deriv_const 0 _).symm

/-- C3 witness: cylindrical mode with height axis z on the vertex at
(3, 4, 12) with fresh rho = 5: the gradient (3/5, 4/5, 0) equals the
directional derivatives of the height. -/
theorem height_grad_matches_height_derivative_witness :
    ((5 : ℝ) ≠ 0) ∧
    ((∃ g, height_grad GeomMode.cylindrical (⟨3, 4, 12, 5, 4⟩ : DJv ℝ) = some g ∧
      g.x = deriv (fun t => height_vert Real.sqrt GeomMode.cylindrical Axis.z
        (0, 0) false false 1 (bumpAxis Axis.x ⟨3, 4, 12⟩ t)) 0 ∧
      g.y = deriv (fun t => height_vert Real.sqrt GeomMode.cylindrical Axis.z
        (0, 0) false false 1 (bumpAxis Axis.y ⟨3, 4, 12⟩ t)) 0 ∧
      g.z = deriv (fun t => height_vert Real.sqrt GeomMode.cylindrical Axis.z
        (0, 0) false false 1 (bumpAxis Axis.z ⟨3, 4, 12⟩ t)) 0) ∧
    height_grad GeomMode.rod (⟨3, 4, 12, 5, 4⟩ : DJv ℝ) = none) :=
  ⟨by norm_num,
    height_grad_matches_height_derivative GeomMode.cylindrical Axis.z
      ⟨3, 4, 12, 5, 4⟩ 1 (Or.inr ⟨Or.inr rfl, rfl⟩)
      (by
        show (5 : ℝ) = Real.sqrt (4 ^ 2 + 3 ^ 2)
        rw [show (4 : ℝ) ^ 2 + 3 ^ 2 = 5 ^ 2 by norm_num]
        exact (Real.sqrt_sq (by norm_num)).symm)
      (by norm_num)⟩

/-!  ## Claim C7: balance bookkeeping lemmas -/

lemma list_sum_map_sub {α β : Type} [AddCommGroup α] (l : List β) (f g : β → α) :
    (l.map (fun b => f b - g b)).sum = (l.map f).sum - (l.map g).sum := by
  induction l with
  | nil => simp
  | cons a l ih => simp [ih]; abel

lemma netDeg_nil {α : Type} (f v : ℕ) : netDeg ([] : List (EdgeRow α)) f v = 0 := rfl

lemma netDeg_cons {α : Type} (a : EdgeRow α) (l : List (EdgeRow α)) (f v : ℕ) :
    netDeg (a :: l) f v = edgeContrib a f v + netDeg l f v := by
  simp [netDeg]

lemma netDeg_set {α : Type} (l : List (EdgeRow α)) (i : ℕ) (r r2 : EdgeRow α)
    (h : l.get? i = some r) (f v : ℕ) :
    netDeg (l.set i r2) f v =
      netDeg l f v + edgeContrib r2 f v - edgeContrib r f v := by
  induction l generalizing i with
  | nil => simp at h
  | cons a l ih =>
    cases i with
    | zero =>
      simp only [List.get?] at h
      obtain rfl : a = r := by injection h
      simp [List.set, netDeg_cons]
      ring
    | succ i =>
      simp only [List.get?] at h
      simp [List.set, netDeg_cons, ih i h]
      ring

lemma netDeg_locSetFace {α : Type} {l : List (EdgeRow α)} {i f0 : ℕ}
    {r : EdgeRow α} (h : l.get? i = some r) (f v : ℕ) :
    netDeg (locSetFace l i f0) f v =
      netDeg l f v + edgeContrib { r with face := f0 } f v - edgeContrib r f v := by
  unfold locSetFace
  rw [h]
  exact netDeg_set l i r _ h f v

lemma netDeg_locSetSTF {α : Type} {l : List (EdgeRow α)} {i a b f0 : ℕ}
    {r : EdgeRow α} (h : l.get? i = some r) (f v : ℕ) :
    netDeg (locSetSTF l i a b f0) f v =
      netDeg l f v + edgeContrib { r with srce := a, trgt := b, face := f0 } f v -
        edgeContrib r f v := by
  unfold locSetSTF
  rw [h]
  exact netDeg_set l i r _ h f v

lemma netDeg_eq_counts {α : Type} (l : List (EdgeRow α)) (f v : ℕ) :
    netDeg l f v =
      (((l.filter (fun e => e.face == f)).map EdgeRow.srce).count v : ℤ) -
      (((l.filter (fun e => e.face == f)).map EdgeRow.trgt).count v : ℤ) := by
  induction l with
  | nil => simp [netDeg]
  | cons a l ih =>
    rw [netDeg_cons, List.filter_cons]
    by_cases hf : a.face = f
    · have hbf : (a.face == f) = true := by simp [hf]
      by_cases hs : a.srce = v <;> by_cases ht : a.trgt = v <;>
        simp [edgeContrib, ih, hf, hs, ht, hbf, List.count_cons] <;> ring
    · have hbf : (a.face == f) = false := by simp [hf]
      simp [edgeContrib, ih, hf, hbf]

lemma faceBalanced_iff_netDeg {α : Type} (s : SheetT α) (f : ℕ) :
    faceBalanced s f ↔ ∀ v, netDeg s.edge_df f v = 0 := by
  unfold faceBalanced faceSrces faceTrgts
  rw [Multiset.ext]
  constructor
  · intro h v
    rw [netDeg_eq_counts]
    have := h v
    simp only [Multiset.coe_count] at this
    omega
  · intro h v
    have := h v
    rw [netDeg_eq_counts] at this
    simp only [Multiset.coe_count]
    omega

lemma netDeg_of_not_mem {α : Type} {l : List (EdgeRow α)} {f : ℕ}
    (h : f ∉ l.map EdgeRow.face) (v : ℕ) : netDeg l f v = 0 := by
  induction l with
  | nil => rfl
  | cons a l ih =>
    simp only [List.map_cons, List.mem_cons, not_or] at h
    rw [netDeg_cons, ih h.2]
    have : a.face ≠ f := fun hh => h.1 hh.symm
    simp [edgeContrib, this]

lemma dispSum_eq_zero_of_balanced {α : Type} [Field α] (s : SheetT α) (f : ℕ)
    (h : faceBalanced s f) (c : String) : dispSum s f c = 0 := by
  unfold dispSum
  rw [list_sum_map_sub]
  have hcong := congrArg
    (fun m : Multiset ℕ => (m.map (fun v => vertVal s v c)).sum) h
  unfold faceSrces faceTrgts at hcong
  simp only [Multiset.map_coe, Multiset.sum_coe, List.map_map] at hcong
  have h1 : (s.edge_df.filter (fun e => e.face == f)).map
      (fun e => vertVal s e.trgt c) =
      ((s.edge_df.filter (fun e => e.face == f)).map EdgeRow.trgt).map
        (fun v => vertVal s v c) := by
    rw [List.map_map]; rfl
  have h2 : (s.edge_df.filter (fun e => e.face == f)).map
      (fun e => vertVal s e.srce c) =
      ((s.edge_df.filter (fun e => e.face == f)).map EdgeRow.srce).map
        (fun v => vertVal s v c) := by
    rw [List.map_map]; rfl
  rw [h1, h2, List.map_map, List.map_map] at *
  rw [sub_eq_zero]
  exact hcong.symm

lemma ite_and_mul {P Q : Prop} [Decidable P] [Decidable Q] :
    (if P ∧ Q then (1 : ℤ) else 0) =
      (if P then (1 : ℤ) else 0) * (if Q then (1 : ℤ) else 0) := by
  by_cases hP : P <;> by_cases hQ : Q <;> simp [hP, hQ]

/-- C7: on a valid interior edge (all five neighbour lookups resolve, the
six edge indices are pairwise distinct, and every face with edges is a
closed cycle), type1_transition succeeds and preserves the vertex, edge
and face counts, every face of the result is still a closed cycle (source
and target multisets agree), and consequently every face's sum of edge
displacement vectors vanishes on every coordinate column. -/
theorem type1_transition_preserves_counts_and_cycles {α : Type} [Field α]
    (s : SheetT α) (edge01 i10 i05 i50 i13 i31 : ℕ)
    (e01 r10 r05 r50 r13 r31 : EdgeRow α)
    (w0 w1 fb fd : String → α) (eps : α)
    (h01 : s.edge_df.get? edge01 = some e01)
    (h10 : ilocFirst s.edge_df
      (fun e => e.srce == e01.trgt && e.trgt == e01.srce) = some (i10, r10))
    (h05 : ilocFirst s.edge_df
      (fun e => e.srce == e01.srce && e.face == r10.face) = some (i05, r05))
    (h50 : ilocFirst s.edge_df
      (fun e => e.srce == r05.trgt && e.trgt == e01.srce) = some (i50, r50))
    (h13 : ilocFirst s.edge_df
      (fun e => e.srce == e01.trgt && e.face == e01.face) = some (i13, r13))
    (h31 : ilocFirst s.edge_df
      (fun e => e.srce == r13.trgt && e.trgt == e01.trgt) = some (i31, r31))
    (hw0 : s.vert_df.get? e01.srce = some w0)
    (hw1 : s.vert_df.get? e01.trgt = some w1)
    (hfb : s.face_df.get? e01.face = some fb)
    (hfd : s.face_df.get? r10.face = some fd)
    (hnodup : [edge01, i10, i05, i50, i13, i31].Pairwise (· ≠ ·))
    (hbal : ∀ f ∈ s.edge_df.map EdgeRow.face, faceBalanced s f) :
    ∃ t, type1_transition s edge01 eps = .ok t ∧
      t.vert_df.length = s.vert_df.length ∧
      t.edge_df.length = s.edge_df.length ∧
      t.face_df.length = s.face_df.length ∧
      (∀ f, faceBalanced t f) ∧
      (∀ f c, dispSum t f c = 0) := by
  obtain ⟨hg10, hp10⟩ := ilocFirst_eq_some h10
  obtain ⟨hg05, hp05⟩ := ilocFirst_eq_some h05
  obtain ⟨hg50, hp50⟩ := ilocFirst_eq_some h50
  obtain ⟨hg13, hp13⟩ := ilocFirst_eq_some h13
  obtain ⟨hg31, hp31⟩ := ilocFirst_eq_some h31
  simp only [Bool.and_eq_true, beq_iff_eq] at hp10 hp05 hp50 hp13 hp31
  obtain ⟨hp10s, hp10t⟩ := hp10
  obtain ⟨hp05s, hp05f⟩ := hp05
  obtain ⟨hp50s, hp50t⟩ := hp50
  obtain ⟨hp13s, hp13f⟩ := hp13
  obtain ⟨hp31s, hp31t⟩ := hp31
  obtain ⟨hA, hnodup⟩ := List.pairwise_cons.mp hnodup
  obtain ⟨hB, hnodup⟩ := List.pairwise_cons.mp hnodup
  obtain ⟨hC, hnodup⟩ := List.pairwise_cons.mp hnodup
  obtain ⟨hD, hnodup⟩ := List.pairwise_cons.mp hnodup
  obtain ⟨hE, _⟩ := List.pairwise_cons.mp hnodup
  have ne01_10 : edge01 ≠ i10 := hA i10 (by simp)
  have ne01_05 : edge01 ≠ i05 := hA i05 (by simp)
  have ne01_50 : edge01 ≠ i50 := hA i50 (by simp)
  have ne01_13 : edge01 ≠ i13 := hA i13 (by simp)
  have ne01_31 : edge01 ≠ i31 := hA i31 (by simp)
  have ne10_05 : i10 ≠ i05 := hB i05 (by simp)
  have ne10_50 : i10 ≠ i50 := hB i50 (by simp)
  have ne10_13 : i10 ≠ i13 := hB i13 (by simp)
  have ne10_31 : i10 ≠ i31 := hB i31 (by simp)
  have ne05_50 : i05 ≠ i50 := hC i50 (by simp)
  have ne05_13 : i05 ≠ i13 := hC i13 (by simp)
  have ne05_31 : i05 ≠ i31 := hC i31 (by simp)
  have ne50_13 : i50 ≠ i13 := hD i13 (by simp)
  have ne50_31 : i50 ≠ i31 := hD i31 (by simp)
  have ne13_31 : i13 ≠ i31 := hE i31 (by simp)
  have hg1 : (locSetFace s.edge_df edge01 r31.face).get? i10 = some r10 := by
    rw [locSetFace_get?_ne _ _ _ _ (Ne.symm ne01_10)]
    exact hg10
  have hg2 : (locSetFace (locSetFace s.edge_df edge01 r31.face) i10
      r50.face).get? i13 = some r13 := by
    rw [locSetFace_get?_ne _ _ _ _ (Ne.symm ne10_13),
      locSetFace_get?_ne _ _ _ _ (Ne.symm ne01_13)]
    exact hg13
  have hg3 : (locSetSTF (locSetFace (locSetFace s.edge_df edge01 r31.face) i10
      r50.face) i13 e01.srce r13.trgt e01.face).get? i31 = some r31 := by
    rw [locSetSTF_get?_ne _ _ _ _ _ _ (Ne.symm ne13_31),
      locSetFace_get?_ne _ _ _ _ (Ne.symm ne10_31),
      locSetFace_get?_ne _ _ _ _ (Ne.symm ne01_31)]
    exact hg31
  have hg4 : (locSetSTF (locSetSTF (locSetFace (locSetFace s.edge_df edge01
      r31.face) i10 r50.face) i13 e01.srce r13.trgt e01.face) i31 r13.trgt
      e01.srce r31.face).get? i50 = some r50 := by
    rw [locSetSTF_get?_ne _ _ _ _ _ _ ne50_31, locSetSTF_get?_ne _ _ _ _ _ _ ne50_13,
      locSetFace_get?_ne _ _ _ _ (Ne.symm ne10_50),
      locSetFace_get?_ne _ _ _ _ (Ne.symm ne01_50)]
    exact hg50
  have hg5 : (locSetSTF (locSetSTF (locSetSTF (locSetFace (locSetFace s.edge_df
      edge01 r31.face) i10 r50.face) i13 e01.srce r13.trgt e01.face) i31
      r13.trgt e01.srce r31.face) i50 r05.trgt e01.trgt r50.face).get? i05 =
      some r05 := by
    rw [locSetSTF_get?_ne _ _ _ _ _ _ ne05_50, locSetSTF_get?_ne _ _ _ _ _ _ ne05_31,
      locSetSTF_get?_ne _ _ _ _ _ _ ne05_13,
      locSetFace_get?_ne _ _ _ _ (Ne.symm ne10_05),
      locSetFace_get?_ne _ _ _ _ (Ne.symm ne01_05)]
    exact hg05
  have hbalED : ∀ f v : ℕ,
      netDeg (locSetSTF (locSetSTF (locSetSTF (locSetSTF (locSetFace
        (locSetFace s.edge_df edge01 r31.face) i10 r50.face) i13 e01.srce
        r13.trgt e01.face) i31 r13.trgt e01.srce r31.face) i50 r05.trgt
        e01.trgt r50.face) i05 e01.trgt r05.trgt r10.face) f v = 0 := by
    intro f v
    rw [netDeg_locSetSTF hg5, netDeg_locSetSTF hg4, netDeg_locSetSTF hg3,
      netDeg_locSetSTF hg2, netDeg_locSetFace hg1, netDeg_locSetFace h01]
    have hz : netDeg s.edge_df f v = 0 := by
      by_cases hmem : f ∈ s.edge_df.map EdgeRow.face
      · exact (faceBalanced_iff_netDeg s f).mp (hbal f hmem) v
      · exact netDeg_of_not_mem hmem v
    rw [hz]
    simp only [edgeContrib, hp10s, hp10t, hp05s, hp05f, hp50s, hp50t, hp13s,
      hp13f, hp31s, hp31t, ite_and_mul]
    ring
  simp only [type1_transition, h01, h10, h05, h50, h13, h31, hw0, hw1, hfb,
    hfd, reset_topo]
  refine ⟨_, rfl, ?_, ?_, rfl, ?_, ?_⟩
  · simp [List.length_set]
  · simp [locSetSTF_length, locSetFace_length]
  · intro f
    rw [faceBalanced_iff_netDeg]
    exact fun v => hbalED f v
  · intro f c
    apply dispSum_eq_zero_of_balanced
    rw [faceBalanced_iff_netDeg]
    exact fun v => hbalED f v

/-- C7 witness: the four-triangle neighbourhood C7sheet around edge 0 is
balanced, the transition succeeds, counts 6/12/4 are preserved, and every
face of the result is still a closed cycle with vanishing displacement
sums. -/
theorem type1_transition_preserves_counts_and_cycles_witness :
    (∀ f ∈ C7sheet.edge_df.map EdgeRow.face, faceBalanced C7sheet f) ∧
    ∃ t, type1_transition C7sheet 0 (1 / 2 : ℚ) = .ok t ∧
      t.vert_df.length = 6 ∧ t.edge_df.length = 12 ∧ t.face_df.length = 4 ∧
      (∀ f, faceBalanced t f) ∧ (∀ f c, dispSum t f c = 0) :=
  ⟨by decide, type1_transition_preserves_counts_and_cycles C7sheet 0 3 4 6 1 9
    ⟨0, 1, 1, fun _ => 0⟩ ⟨1, 0, 3, fun _ => 0⟩ ⟨0, 3, 3, fun _ => 0⟩
    ⟨3, 0, 0, fun _ => 0⟩ ⟨1, 2, 1, fun _ => 0⟩ ⟨2, 1, 2, fun _ => 0⟩
    (fun c => if c = "x" then 0 else if c = "y" then 0 else 0)
    (fun c => if c = "x" then 2 else if c = "y" then 0 else 0)
    (fun _ => 1) (fun _ => 3) (1 / 2)
    rfl rfl rfl rfl rfl rfl rfl rfl rfl rfl (by decide) (by decide)⟩

/-!  ## Claim C9: update_all is idempotent

The strategy: every derived quantity update_all writes is a function of
the core data (vertex positions, basal shifts, tip flags, edge and face
references, settings), which no updater changes; therefore the sheet
update_all produces is a fixed point of each individual updater, and a
second update_all pass leaves it unchanged. -/

lemma get?_enum_map {β γ : Type} (l : List β) (G : ℕ × β → γ) (i : ℕ) :
    (l.enum.map G).get? i = (l.get? i).map (fun r => G (i, r)) := by
  rw [List.get?_map, List.get?_enum]
  cases l.get? i <;> rfl

lemma filter_map_face {α : Type} (l : List (GEdge α)) (F : GEdge α → GEdge α)
    (hF : ∀ e, (F e).face = e.face) (f : ℕ) :
    (l.map F).filter (fun e => e.face == f) =
      (l.filter (fun e => e.face == f)).map F := by
  rw [List.filter_map]
  congr 1
  apply List.filter_congr
  intro a _
  show ((F a).face == f) = (a.face == f)
  rw [hF a]

lemma char_vert {α : Type} [LinearOrderedField α] (q : α → α) (s : GSheet α) :
    (SheetGeometry.update_all q s).vert_df = s.vert_df.map (fun v =>
      let rho := rho_vert q s.geometry s.height_axis s.ab
        (decide (v.left_tip = 1)) (decide (v.right_tip = 1)) ⟨v.x, v.y, v.z⟩
      { v with rho := rho, height := rho - v.basal_shift }) := rfl

lemma vertPos_update_all {α : Type} [LinearOrderedField α] (q : α → α)
    (s : GSheet α) (i : ℕ) :
    (SheetGeometry.update_all q s).vertPos i = s.vertPos i := by
  show (((SheetGeometry.update_all q s).vert_df.get? i).map
      (fun v => (⟨v.x, v.y, v.z⟩ : Vec3 α))).getD 0 =
    ((s.vert_df.get? i).map (fun v => (⟨v.x, v.y, v.z⟩ : Vec3 α))).getD 0
  rw [char_vert, List.get?_map]
  cases s.vert_df.get? i <;> rfl

lemma facePos_update_centroid {α : Type} [Field α] (X : GSheet α) (f : ℕ) :
    (SheetGeometry.update_centroid X).facePos f =
      ((X.face_df.get? f).map (fun _ => (⟨
        X.sum_face (fun e => (X.vertPos e.srce).x) f / (X.count_face f : ℕ),
        X.sum_face (fun e => (X.vertPos e.srce).y) f / (X.count_face f : ℕ),
        X.sum_face (fun e => (X.vertPos e.srce).z) f / (X.count_face f : ℕ)⟩ :
          Vec3 α))).getD 0 := by
  show (((X.face_df.enum.map _).get? f).map _).getD 0 = _
  rw [get?_enum_map]
  cases X.face_df.get? f <;> rfl

lemma facePos_update_height {α : Type} [LinearOrderedField α] (q : α → α)
    (X : GSheet α) (f : ℕ) :
    (SheetGeometry.update_height q X).facePos f = X.facePos f := by
  show (((SheetGeometry.update_height q X).face_df.get? f).map
      (fun r => (⟨r.x, r.y, r.z⟩ : Vec3 α))).getD 0 =
    ((X.face_df.get? f).map (fun r => (⟨r.x, r.y, r.z⟩ : Vec3 α))).getD 0
  show (((X.face_df.enum.map _).get? f).map _).getD 0 = _
  rw [get?_enum_map]
  cases X.face_df.get? f <;> rfl

lemma sum_filter_map {α β : Type} [AddCommMonoid β] (l : List (GEdge α))
    (F : GEdge α → GEdge α) (hF : ∀ e, (F e).face = e.face)
    (g : GEdge α → β) (f : ℕ) :
    (((l.map F).filter (fun e => e.face == f)).map g).sum =
      ((l.filter (fun e => e.face == f)).map (fun e => g (F e))).sum := by
  rw [filter_map_face l F hF f, List.map_map]
  rfl

lemma length_filter_map {α : Type} (l : List (GEdge α))
    (F : GEdge α → GEdge α) (hF : ∀ e, (F e).face = e.face) (f : ℕ) :
    ((l.map F).filter (fun e => e.face == f)).length =
      (l.filter (fun e => e.face == f)).length := by
  rw [filter_map_face l F hF f, List.length_map]

lemma update_all_stages {α : Type} [LinearOrderedField α] (q : α → α)
    (s : GSheet α) :
    SheetGeometry.update_all q s =
      SheetGeometry.update_vol (SheetGeometry.stageA7 q s) := rfl

lemma edge_pass1_srce {α : Type} [LinearOrderedField α] (q : α → α)
    (s : GSheet α) (e : GEdge α) :
    (SheetGeometry.edge_pass1 q s e).srce = e.srce := rfl

lemma edge_pass1_face {α : Type} [LinearOrderedField α] (q : α → α)
    (s : GSheet α) (e : GEdge α) :
    (SheetGeometry.edge_pass1 q s e).face = e.face := rfl

lemma edge_stageA2 {α : Type} [LinearOrderedField α] (q : α → α)
    (s : GSheet α) :
    (SheetGeometry.stageA2 q s).edge_df =
      s.edge_df.map (SheetGeometry.edge_pass1 q s) := by
  show (s.edge_df.map _).map _ = _
  rw [List.map_map]
  rfl

lemma vertPos_update_centroid {α : Type} [Field α] (X : GSheet α) (i : ℕ) :
    (SheetGeometry.update_centroid X).vertPos i = X.vertPos i := rfl

lemma vertPos_stageA2 {α : Type} [LinearOrderedField α] (q : α → α)
    (s : GSheet α) (i : ℕ) :
    (SheetGeometry.stageA2 q s).vertPos i = s.vertPos i := rfl

lemma vertPos_update_height {α : Type} [LinearOrderedField α] (q : α → α)
    (X : GSheet α) (i : ℕ) :
    (SheetGeometry.update_height q X).vertPos i = X.vertPos i := by
  show (((X.vert_df.map _).get? i).map _).getD 0 =
    ((X.vert_df.get? i).map (fun v => (⟨v.x, v.y, v.z⟩ : Vec3 α))).getD 0
  rw [List.get?_map]
  cases X.vert_df.get? i <;> rfl

lemma vertPos_stageA4 {α : Type} [LinearOrderedField α] (q : α → α)
    (s : GSheet α) (i : ℕ) :
    (SheetGeometry.stageA4 q s).vertPos i = s.vertPos i := by
  unfold SheetGeometry.stageA4
  rw [vertPos_update_height, vertPos_update_centroid, vertPos_stageA2]

lemma count_face_stageA2 {α : Type} [LinearOrderedField α] (q : α → α)
    (s : GSheet α) (f : ℕ) :
    (SheetGeometry.stageA2 q s).count_face f = s.count_face f := by
  unfold GSheet.count_face
  rw [edge_stageA2,
    length_filter_map _ (SheetGeometry.edge_pass1 q s) (fun _ => rfl)]

lemma sum_face_stageA2 {α : Type} [LinearOrderedField α] (q : α → α)
    (s : GSheet α) (g : GEdge α → α) (f : ℕ) :
    (SheetGeometry.stageA2 q s).sum_face g f =
      ((s.edge_df.filter (fun e => e.face == f)).map
        (fun e => g (SheetGeometry.edge_pass1 q s e))).sum := by
  unfold GSheet.sum_face
  rw [edge_stageA2,
    sum_filter_map _ (SheetGeometry.edge_pass1 q s) (fun _ => rfl)]

lemma facePos_stageA4 {α : Type} [LinearOrderedField α] (q : α → α)
    (s : GSheet α) (f : ℕ) :
    (SheetGeometry.stageA4 q s).facePos f = SheetGeometry.centroid_pos s f := by
  unfold SheetGeometry.stageA4
  rw [facePos_update_height, facePos_update_centroid]
  unfold SheetGeometry.centroid_pos
  simp only [vertPos_stageA2, sum_face_stageA2, count_face_stageA2,
    edge_pass1_srce]
  rfl

lemma vert_stageA7 {α : Type} [LinearOrderedField α] (q : α → α)
    (s : GSheet α) :
    (SheetGeometry.stageA7 q s).vert_df =
      s.vert_df.map (SheetGeometry.vert_derived q s) := rfl

lemma heightRead_stageA7 {α : Type} [LinearOrderedField α] (q : α → α)
    (s : GSheet α) (i : ℕ) :
    (((SheetGeometry.stageA7 q s).vert_df.get? i).map GVert.height).getD 0 =
      SheetGeometry.height_at q s i := by
  rw [vert_stageA7, List.get?_map]
  unfold SheetGeometry.height_at
  cases s.vert_df.get? i <;> rfl

lemma edge_stageA4 {α : Type} [LinearOrderedField α] (q : α → α)
    (s : GSheet α) :
    (SheetGeometry.stageA4 q s).edge_df =
      s.edge_df.map (SheetGeometry.edge_pass1 q s) := by
  show (SheetGeometry.stageA2 q s).edge_df = _
  exact edge_stageA2 q s

lemma edge_stageA7 {α : Type} [LinearOrderedField α] (q : α → α)
    (s : GSheet α) :
    (SheetGeometry.stageA7 q s).edge_df =
      ((SheetGeometry.stageA4 q s).edge_df.map (fun e =>
        let n := ((SheetGeometry.stageA4 q s).vertPos e.srce -
          (SheetGeometry.stageA4 q s).facePos e.face).cross ⟨e.dx, e.dy, e.dz⟩
        { e with nx := n.x, ny := n.y, nz := n.z })).map (fun e =>
        { e with sub_area := q (e.nx ^ 2 + e.ny ^ 2 + e.nz ^ 2) / 2 }) := rfl

lemma char_edge {α : Type} [LinearOrderedField α] (q : α → α) (s : GSheet α) :
    (SheetGeometry.update_all q s).edge_df =
      s.edge_df.map (SheetGeometry.edge_derived q s) := by
  rw [update_all_stages]
  show (SheetGeometry.stageA7 q s).edge_df.map _ = _
  rw [edge_stageA7, edge_stageA4, List.map_map, List.map_map, List.map_map]
  apply List.map_congr_left
  intro e _
  simp only [Function.comp]
  simp only [vertPos_stageA4, facePos_stageA4, heightRead_stageA7]
  rfl

lemma face_get?_update_centroid {α : Type} [Field α] (X : GSheet α) (f : ℕ) :
    (SheetGeometry.update_centroid X).face_df.get? f =
      (X.face_df.get? f).map (fun r =>
        let n : α := (X.count_face f : ℕ)
        { r with
          x := X.sum_face (fun e => (X.vertPos e.srce).x) f / n
          y := X.sum_face (fun e => (X.vertPos e.srce).y) f / n
          z := X.sum_face (fun e => (X.vertPos e.srce).z) f / n }) := by
  show (X.face_df.enum.map _).get? f = _
  rw [get?_enum_map]

lemma face_get?_update_height {α : Type} [LinearOrderedField α] (q : α → α)
    (X : GSheet α) (f : ℕ) :
    (SheetGeometry.update_height q X).face_df.get? f =
      (X.face_df.get? f).map (fun r =>
        let n : α := (X.count_face f : ℕ)
        { r with
          height := X.sum_face (fun e =>
            (((X.vert_df.map (fun v =>
              let rho := rho_vert q X.geometry X.height_axis X.ab
                (decide (v.left_tip = 1)) (decide (v.right_tip = 1))
                ⟨v.x, v.y, v.z⟩
              { v with
                rho := rho,
                height := rho - v.basal_shift })).get? e.srce).map
                  GVert.height).getD 0) f / n
          rho := X.sum_face (fun e =>
            (((X.vert_df.map (fun v =>
              let rho := rho_vert q X.geometry X.height_axis X.ab
                (decide (v.left_tip = 1)) (decide (v.right_tip = 1))
                ⟨v.x, v.y, v.z⟩
              { v with
                rho := rho,
                height := rho - v.basal_shift })).get? e.srce).map
                  GVert.rho).getD 0) f / n }) := by
  show (X.face_df.enum.map _).get? f = _
  rw [get?_enum_map]
  rfl

lemma face_get?_update_normals {α : Type} [Field α] (X : GSheet α) (f : ℕ) :
    (SheetGeometry.update_normals X).face_df.get? f = X.face_df.get? f := rfl

lemma face_get?_update_areas {α : Type} [Field α] (q : α → α) (X : GSheet α)
    (f : ℕ) :
    (SheetGeometry.update_areas q X).face_df.get? f =
      (X.face_df.get? f).map (fun r =>
        { r with area :=
            (SheetGeometry.update_areas q X).sum_face GEdge.sub_area f }) := by
  show (X.face_df.enum.map _).get? f = _
  rw [get?_enum_map]
  rfl

lemma face_get?_update_perimeters {α : Type} [Field α] (X : GSheet α) (f : ℕ) :
    (SheetGeometry.update_perimeters X).face_df.get? f =
      (X.face_df.get? f).map (fun r =>
        { r with perimeter := X.sum_face GEdge.length f }) := by
  show (X.face_df.enum.map _).get? f = _
  rw [get?_enum_map]

lemma face_get?_update_vol {α : Type} [Field α] (X : GSheet α) (f : ℕ) :
    (SheetGeometry.update_vol X).face_df.get? f =
      (X.face_df.get? f).map (fun r =>
        { r with vol :=
            (SheetGeometry.update_vol X).sum_face GEdge.sub_vol f }) := by
  show (X.face_df.enum.map _).get? f = _
  rw [get?_enum_map]
  rfl

lemma sum_face_update_centroid {α : Type} [Field α] (X : GSheet α)
    (g : GEdge α → α) (f : ℕ) :
    (SheetGeometry.update_centroid X).sum_face g f = X.sum_face g f := rfl

lemma count_face_update_centroid {α : Type} [Field α] (X : GSheet α) (f : ℕ) :
    (SheetGeometry.update_centroid X).count_face f = X.count_face f := rfl

lemma vert_update_centroid {α : Type} [Field α] (X : GSheet α) :
    (SheetGeometry.update_centroid X).vert_df = X.vert_df := rfl

lemma geometry_update_centroid {α : Type} [Field α] (X : GSheet α) :
    (SheetGeometry.update_centroid X).geometry = X.geometry := rfl

lemma height_axis_update_centroid {α : Type} [Field α] (X : GSheet α) :
    (SheetGeometry.update_centroid X).height_axis = X.height_axis := rfl

lemma ab_update_centroid {α : Type} [Field α] (X : GSheet α) :
    (SheetGeometry.update_centroid X).ab = X.ab := rfl

lemma vert_stageA2 {α : Type} [LinearOrderedField α] (q : α → α)
    (s : GSheet α) : (SheetGeometry.stageA2 q s).vert_df = s.vert_df := rfl

lemma geometry_stageA2 {α : Type} [LinearOrderedField α] (q : α → α)
    (s : GSheet α) : (SheetGeometry.stageA2 q s).geometry = s.geometry := rfl

lemma height_axis_stageA2 {α : Type} [LinearOrderedField α] (q : α → α)
    (s : GSheet α) :
    (SheetGeometry.stageA2 q s).height_axis = s.height_axis := rfl

lemma ab_stageA2 {α : Type} [LinearOrderedField α] (q : α → α)
    (s : GSheet α) : (SheetGeometry.stageA2 q s).ab = s.ab := rfl

lemma face_get?_stageA2 {α : Type} [LinearOrderedField α] (q : α → α)
    (s : GSheet α) (f : ℕ) :
    (SheetGeometry.stageA2 q s).face_df.get? f = s.face_df.get? f := rfl

lemma face_get?_stageA4 {α : Type} [LinearOrderedField α] (q : α → α)
    (s : GSheet α) (f : ℕ) :
    (SheetGeometry.stageA4 q s).face_df.get? f =
      (s.face_df.get? f).map (fun r =>
        let n : α := (s.count_face f : ℕ)
        { r with
          x := s.sum_face (fun e => (s.vertPos e.srce).x) f / n
          y := s.sum_face (fun e => (s.vertPos e.srce).y) f / n
          z := s.sum_face (fun e => (s.vertPos e.srce).z) f / n
          height := s.sum_face
            (fun e => SheetGeometry.height_at q s e.srce) f / n
          rho := s.sum_face
            (fun e => SheetGeometry.rho_at q s e.srce) f / n }) := by
  unfold SheetGeometry.stageA4
  rw [face_get?_update_height, face_get?_update_centroid, face_get?_stageA2,
    Option.map_map]
  simp only [sum_face_update_centroid, count_face_update_centroid,
    vert_update_centroid, geometry_update_centroid,
    height_axis_update_centroid, ab_update_centroid, vert_stageA2,
    geometry_stageA2, height_axis_stageA2, ab_stageA2]
  simp only [sum_face_stageA2, count_face_stageA2, vertPos_stageA2,
    edge_pass1_srce]
  simp only [List.get?_map, Option.map_map]
  rfl

lemma edge_update_normals {α : Type} [Field α] (X : GSheet α) :
    (SheetGeometry.update_normals X).edge_df = X.edge_df.map (fun e =>
      let n := (X.vertPos e.srce - X.facePos e.face).cross ⟨e.dx, e.dy, e.dz⟩
      { e with nx := n.x, ny := n.y, nz := n.z }) := rfl

lemma edge_update_areas {α : Type} [Field α] (q : α → α) (X : GSheet α) :
    (SheetGeometry.update_areas q X).edge_df = X.edge_df.map (fun e =>
      { e with sub_area := q (e.nx ^ 2 + e.ny ^ 2 + e.nz ^ 2) / 2 }) := rfl

lemma edge_update_vol {α : Type} [Field α] (X : GSheet α) :
    (SheetGeometry.update_vol X).edge_df = X.edge_df.map (fun e =>
      { e with sub_vol :=
        ((X.vert_df.get? e.srce).map GVert.height).getD 0 * e.sub_area }) := rfl

lemma sum_face_update_areas {α : Type} [Field α] (q : α → α) (X : GSheet α)
    (g : GEdge α → α) (f : ℕ) :
    (SheetGeometry.update_areas q X).sum_face g f =
      X.sum_face (fun e =>
        g { e with sub_area := q (e.nx ^ 2 + e.ny ^ 2 + e.nz ^ 2) / 2 }) f := by
  unfold GSheet.sum_face
  rw [edge_update_areas,
    sum_filter_map _ (fun e =>
      { e with sub_area := q (e.nx ^ 2 + e.ny ^ 2 + e.nz ^ 2) / 2 })
      (fun _ => rfl)]

lemma sum_face_update_normals {α : Type} [Field α] (X : GSheet α)
    (g : GEdge α → α) (f : ℕ) :
    (SheetGeometry.update_normals X).sum_face g f =
      X.sum_face (fun e =>
        g (let n := (X.vertPos e.srce - X.facePos e.face).cross
            ⟨e.dx, e.dy, e.dz⟩
          { e with nx := n.x, ny := n.y, nz := n.z })) f := by
  unfold GSheet.sum_face
  rw [edge_update_normals,
    sum_filter_map _ (fun e =>
      let n := (X.vertPos e.srce - X.facePos e.face).cross ⟨e.dx, e.dy, e.dz⟩
      { e with nx := n.x, ny := n.y, nz := n.z })
      (fun _ => rfl)]

lemma sum_face_update_vol {α : Type} [Field α] (X : GSheet α)
    (g : GEdge α → α) (f : ℕ) :
    (SheetGeometry.update_vol X).sum_face g f =
      X.sum_face (fun e =>
        g { e with sub_vol :=
          ((X.vert_df.get? e.srce).map GVert.height).getD 0 * e.sub_area }) f := by
  unfold GSheet.sum_face
  rw [edge_update_vol,
    sum_filter_map _ (fun e =>
      { e with sub_vol :=
        ((X.vert_df.get? e.srce).map GVert.height).getD 0 * e.sub_area })
      (fun _ => rfl)]

lemma sum_face_stageA4 {α : Type} [LinearOrderedField α] (q : α → α)
    (s : GSheet α) (g : GEdge α → α) (f : ℕ) :
    (SheetGeometry.stageA4 q s).sum_face g f =
      s.sum_face (fun e => g (SheetGeometry.edge_pass1 q s e)) f := by
  unfold GSheet.sum_face
  rw [edge_stageA4, sum_filter_map _ (SheetGeometry.edge_pass1 q s)
    (fun _ => rfl)]

lemma face_get?_stageA7 {α : Type} [LinearOrderedField α] (q : α → α)
    (s : GSheet α) (f : ℕ) :
    (SheetGeometry.stageA7 q s).face_df.get? f =
      (s.face_df.get? f).map (fun r =>
        let n : α := (s.count_face f : ℕ)
        { r with
          x := s.sum_face (fun e => (s.vertPos e.srce).x) f / n
          y := s.sum_face (fun e => (s.vertPos e.srce).y) f / n
          z := s.sum_face (fun e => (s.vertPos e.srce).z) f / n
          area := s.sum_face
            (fun e => (SheetGeometry.edge_derived q s e).sub_area) f
          perimeter := s.sum_face
            (fun e => (SheetGeometry.edge_derived q s e).length) f
          height := s.sum_face
            (fun e => SheetGeometry.height_at q s e.srce) f / n
          rho := s.sum_face
            (fun e => SheetGeometry.rho_at q s e.srce) f / n }) := by
  unfold SheetGeometry.stageA7
  rw [face_get?_update_perimeters, face_get?_update_areas,
    face_get?_update_normals, face_get?_stageA4, Option.map_map,
    Option.map_map]
  simp only [sum_face_update_areas, sum_face_update_normals, sum_face_stageA4]
  simp only [vertPos_stageA4, facePos_stageA4]
  rfl

lemma sum_face_update_perimeters {α : Type} [Field α] (X : GSheet α)
    (g : GEdge α → α) (f : ℕ) :
    (SheetGeometry.update_perimeters X).sum_face g f = X.sum_face g f := rfl

lemma char_face_get? {α : Type} [LinearOrderedField α] (q : α → α)
    (s : GSheet α) (f : ℕ) :
    (SheetGeometry.update_all q s).face_df.get? f =
      (s.face_df.get? f).map (fun _ => SheetGeometry.face_derived q s f) := by
  rw [update_all_stages, face_get?_update_vol, face_get?_stageA7,
    Option.map_map]
  simp only [sum_face_update_vol, vert_stageA7, List.get?_map, Option.map_map]
  unfold SheetGeometry.stageA7
  simp only [sum_face_update_perimeters, sum_face_update_areas,
    sum_face_update_normals, sum_face_stageA4]
  simp only [vertPos_stageA4, facePos_stageA4]
  rfl

lemma sum_face_update_all {α : Type} [LinearOrderedField α] (q : α → α)
    (s : GSheet α) (g : GEdge α → α) (f : ℕ) :
    (SheetGeometry.update_all q s).sum_face g f =
      s.sum_face (fun e => g (SheetGeometry.edge_derived q s e)) f := by
  unfold GSheet.sum_face
  rw [char_edge, sum_filter_map _ (SheetGeometry.edge_derived q s)
    (fun _ => rfl)]

lemma count_face_update_all {α : Type} [LinearOrderedField α] (q : α → α)
    (s : GSheet α) (f : ℕ) :
    (SheetGeometry.update_all q s).count_face f = s.count_face f := by
  unfold GSheet.count_face
  rw [char_edge, length_filter_map _ (SheetGeometry.edge_derived q s)
    (fun _ => rfl)]

lemma height_at_update_all {α : Type} [LinearOrderedField α] (q : α → α)
    (s : GSheet α) (i : ℕ) :
    SheetGeometry.height_at q (SheetGeometry.update_all q s) i =
      SheetGeometry.height_at q s i := by
  unfold SheetGeometry.height_at
  rw [char_vert, List.get?_map]
  cases s.vert_df.get? i <;> rfl

lemma rho_at_update_all {α : Type} [LinearOrderedField α] (q : α → α)
    (s : GSheet α) (i : ℕ) :
    SheetGeometry.rho_at q (SheetGeometry.update_all q s) i =
      SheetGeometry.rho_at q s i := by
  unfold SheetGeometry.rho_at
  rw [char_vert, List.get?_map]
  cases s.vert_df.get? i <;> rfl

lemma centroid_pos_update_all {α : Type} [LinearOrderedField α] (q : α → α)
    (s : GSheet α) (f : ℕ) :
    SheetGeometry.centroid_pos (SheetGeometry.update_all q s) f =
      SheetGeometry.centroid_pos s f := by
  unfold SheetGeometry.centroid_pos
  rw [char_face_get? q s f, Option.map_map]
  simp only [sum_face_update_all, count_face_update_all, vertPos_update_all]
  rfl

lemma edge_derived_idem {α : Type} [LinearOrderedField α] (q : α → α)
    (s : GSheet α) (e : GEdge α) :
    SheetGeometry.edge_derived q (SheetGeometry.update_all q s)
      (SheetGeometry.edge_derived q s e) =
      SheetGeometry.edge_derived q s e := by
  simp only [SheetGeometry.edge_derived]
  simp only [vertPos_update_all, centroid_pos_update_all, height_at_update_all]

lemma vert_derived_idem {α : Type} [LinearOrderedField α] (q : α → α)
    (s : GSheet α) (v : GVert α) :
    SheetGeometry.vert_derived q (SheetGeometry.update_all q s)
      (SheetGeometry.vert_derived q s v) =
      SheetGeometry.vert_derived q s v := rfl

lemma face_derived_update_all {α : Type} [LinearOrderedField α] (q : α → α)
    (s : GSheet α) (f : ℕ) :
    SheetGeometry.face_derived q (SheetGeometry.update_all q s) f =
      SheetGeometry.face_derived q s f := by
  unfold SheetGeometry.face_derived
  simp only [sum_face_update_all, count_face_update_all, vertPos_update_all,
    height_at_update_all, rho_at_update_all, edge_derived_idem]
  rfl

lemma GSheet.ext_of {α : Type} (A B : GSheet α)
    (hv : A.vert_df = B.vert_df) (he : A.edge_df = B.edge_df)
    (hf : A.face_df = B.face_df) (hg : A.geometry = B.geometry)
    (ha : A.height_axis = B.height_axis) (hb : A.ab = B.ab) : A = B := by
  cases A
  cases B
  simp only [GSheet.mk.injEq]
  exact ⟨hv, he, hf, hg, ha, hb⟩

lemma geometry_update_all {α : Type} [LinearOrderedField α] (q : α → α)
    (s : GSheet α) :
    (SheetGeometry.update_all q s).geometry = s.geometry := rfl

lemma height_axis_update_all {α : Type} [LinearOrderedField α] (q : α → α)
    (s : GSheet α) :
    (SheetGeometry.update_all q s).height_axis = s.height_axis := rfl

lemma ab_update_all {α : Type} [LinearOrderedField α] (q : α → α)
    (s : GSheet α) :
    (SheetGeometry.update_all q s).ab = s.ab := rfl

/-- C9: update_all recomputes every derived column (edge displacement
vectors and lengths, face centroids, vertex heights, edge normals, face
areas, perimeters and volumes) from the core data alone, so a second call
with unchanged vertex positions returns the same sheet: update_all is
idempotent. -/
theorem update_all_idempotent {α : Type} [LinearOrderedField α] (q : α → α)
    (s : GSheet α) :
    SheetGeometry.update_all q (SheetGeometry.update_all q s) =
      SheetGeometry.update_all q s := by
  have hv : (SheetGeometry.update_all q (SheetGeometry.update_all q s)).vert_df =
      (SheetGeometry.update_all q s).vert_df := by
    rw [char_vert q (SheetGeometry.update_all q s)]
    rw [show (SheetGeometry.update_all q s).vert_df =
      s.vert_df.map (SheetGeometry.vert_derived q s) from char_vert q s]
    rw [List.map_map]
    apply List.map_congr_left
    intro v _
    show SheetGeometry.vert_derived q (SheetGeometry.update_all q s)
      (SheetGeometry.vert_derived q s v) = SheetGeometry.vert_derived q s v
    exact vert_derived_idem q s v
  have he : (SheetGeometry.update_all q (SheetGeometry.update_all q s)).edge_df =
      (SheetGeometry.update_all q s).edge_df := by
    rw [char_edge q (SheetGeometry.update_all q s)]
    rw [show (SheetGeometry.update_all q s).edge_df =
      s.edge_df.map (SheetGeometry.edge_derived q s) from char_edge q s]
    rw [List.map_map]
    apply List.map_congr_left
    intro e _
    show SheetGeometry.edge_derived q (SheetGeometry.update_all q s)
      (SheetGeometry.edge_derived q s e) = SheetGeometry.edge_derived q s e
    exact edge_derived_idem q s e
  have hf : (SheetGeometry.update_all q (SheetGeometry.update_all q s)).face_df =
      (SheetGeometry.update_all q s).face_df := by
    apply List.ext_get?
    intro f
    rw [char_face_get? q (SheetGeometry.update_all q s) f,
      char_face_get? q s f, Option.map_map, face_derived_update_all]
    rfl
  exact GSheet.ext_of _ _ hv he hf
    (geometry_update_all q (SheetGeometry.update_all q s))
    (height_axis_update_all q (SheetGeometry.update_all q s))
    (ab_update_all q (SheetGeometry.update_all q s))
